import Mathlib

/-!
Verification of the wbproto-beautifier formatting engine
(src/lib/src/beautifier.rs, src/lib/src/args.rs).

The engine walks a concrete syntax tree produced by an external parser
(tree-sitter with the wbproto grammar) and re-emits formatted text.  We embed
the tree shallowly: every node carries its kind tag, named flag, optional
field name, source range, verbatim source text slice and its children.  The
external parser and the external clang-format subprocess are out of scope of
the repository; the subprocess is modelled as an explicit deterministic
filter parameter, as the specification prescribes.

Machine integers: all counters in the source are Rust usize values that
never overflow in practice; they are modelled as Nat.  Rust saturating_sub
coincides with Nat subtraction.  Rust String::len (byte length) is modelled
by String.utf8ByteSize.

Rust panics (unwrap / expect / panic!) and anyhow errors (Err) both abort
the whole run but are distinguishable outcomes; the Failure type keeps them
apart.
-/

/-- Source position (tree-sitter Point): zero-based row and column. -/
structure Point where
  row : Nat
  column : Nat
deriving DecidableEq, Repr

mutual
/-- A concrete syntax tree node, as exposed by the external parser API:
kind tag, named flag, optional field name, start and end position, verbatim
source text slice and children in source order. -/
inductive TSNode where
  | mk (kind : String) (named : Bool) (fieldName : Option String)
       (startPoint : Point) (endPoint : Point) (text : String)
       (children : TSNodeList)
/-- Children lists, kept as a separate inductive so that the formatting
functions can recurse structurally. -/
inductive TSNodeList where
  | nil
  | cons (head : TSNode) (tail : TSNodeList)
end

def TSNode.kind : TSNode → String
  | .mk k _ _ _ _ _ _ => k

def TSNode.named : TSNode → Bool
  | .mk _ nm _ _ _ _ _ => nm

def TSNode.fieldName : TSNode → Option String
  | .mk _ _ f _ _ _ _ => f

def TSNode.startPoint : TSNode → Point
  | .mk _ _ _ sp _ _ _ => sp

def TSNode.endPoint : TSNode → Point
  | .mk _ _ _ _ ep _ _ => ep

/-- Model of tree_sitter utf8_text: the verbatim source slice of the node. -/
def TSNode.text : TSNode → String
  | .mk _ _ _ _ _ t _ => t

def TSNode.children : TSNode → TSNodeList
  | .mk _ _ _ _ _ _ cs => cs

def TSNodeList.toList : TSNodeList → List TSNode
  | .nil => []
  | .cons h t => h :: t.toList

def TSNodeList.ofList : List TSNode → TSNodeList
  | [] => .nil
  | h :: t => .cons h (TSNodeList.ofList t)

/-- Model of tree_sitter Node::child(i). -/
def TSNode.child (n : TSNode) (i : Nat) : Option TSNode :=
  n.children.toList[i]?

/-- Model of tree_sitter Node::named_child(i). -/
def TSNode.named_child (n : TSNode) (i : Nat) : Option TSNode :=
  (n.children.toList.filter (fun c => c.named))[i]?

/-- Model of tree_sitter Node::child_by_field_name. -/
def TSNode.child_by_field_name (n : TSNode) (name : String) : Option TSNode :=
  n.children.toList.find? (fun c => c.fieldName == some name)

/-- Model of tree_sitter Node::is_error: the node is an ERROR node. -/
def TSNode.is_error (n : TSNode) : Bool :=
  n.kind == "ERROR"

/-- Size lemmas used for the termination measures. -/
theorem TSNodeList.sizeOf_toList : (l : TSNodeList) → sizeOf l.toList = sizeOf l
  | .nil => by simp [TSNodeList.toList]
  | .cons h t => by simp [TSNodeList.toList, TSNodeList.sizeOf_toList t]

theorem TSNode.sizeOf_children (n : TSNode) : sizeOf n.children < sizeOf n := by
  cases n with
  | mk k nm f sp ep t cs => simp [TSNode.children]

theorem sizeOf_filter_le (p : TSNode → Bool) (l : List TSNode) :
    sizeOf (l.filter p) ≤ sizeOf l := by
  induction l with
  | nil => simp
  | cons hd tl ih =>
    simp only [List.filter]
    cases p hd <;> simp <;> omega

/-- Command-line arguments (src/lib/src/args.rs): the Arguments struct has
exactly two fields; in particular there is no indentation-width option. -/
structure Arguments where
  files : List String
  inplace : Bool
deriving DecidableEq, Repr

/-- A formatting failure: an anyhow error propagated through Result (err),
or a Rust panic from unwrap / expect / panic! (panicked). -/
inductive Failure where
  | err (msg : String)
  | panicked (msg : String)
deriving DecidableEq, Repr

/-- The emission state (struct State in beautifier.rs).  The source field
`code: &[u8]` is not needed here because every node carries its text slice.
The extra `stdout` field models the text sent to the process stdout by
print!/println! when the inplace flag is off. -/
structure State where
  formatted : String
  arguments : Arguments
  stdout : String
  col : Nat
  row : Nat
  level : Nat
  extra_indentation : Nat
  num_spaces : Nat
deriving DecidableEq, Repr

/-- " ".repeat n. -/
def spaces (n : Nat) : String :=
  String.mk (List.replicate n ' ')

/-- State::print: append to the buffer when inplace, else to stdout; the
column advances by the byte length in both cases. -/
def State.print (s : State) (string : String) : State :=
  if s.arguments.inplace then
    { s with formatted := s.formatted ++ string,
             col := s.col + string.utf8ByteSize }
  else
    { s with stdout := s.stdout ++ string,
             col := s.col + string.utf8ByteSize }

/-- State::println: like print plus a newline; resets the column and
advances the row. -/
def State.println (s : State) (string : String) : State :=
  if s.arguments.inplace then
    { s with formatted := s.formatted ++ string ++ "\n",
             col := 0, row := s.row + 1 }
  else
    { s with stdout := s.stdout ++ string ++ "\n",
             col := 0, row := s.row + 1 }

/-- The two print loops of State::indent, unrolled over a repetition count. -/
def State.printTimes (s : State) (string : String) : Nat → State
  | 0 => s
  | n + 1 => (s.print string).printTimes string n

/-- State::indent: level repetitions of num_spaces spaces, then
extra_indentation single spaces. -/
def State.indent (s : State) : State :=
  (s.printTimes (spaces s.num_spaces) s.level).printTimes " " s.extra_indentation

/-- State::print_node: print the verbatim text of a node (utf8_text cannot
fail in the model, the slice is stored in the node). -/
def State.print_node (s : State) (node : TSNode) : Except Failure State :=
  .ok (s.print node.text)

/-- TraversingError::err_at_loc on Option. -/
def errAtLoc {α : Type} (o : Option α) (node : TSNode) : Except Failure α :=
  match o with
  | some v => .ok v
  | none => .error (.err ("Error accessing token around line "
      ++ toString node.startPoint.row ++ " col "
      ++ toString node.startPoint.column))

/-- Model of Result::unwrap applied to a formatting result (field_sizes
calls format_node(..).unwrap()): an Err becomes a panic, a panic from the
callee propagates unchanged. -/
def unwrapResult (r : Except Failure State) : Except Failure State :=
  match r with
  | .ok s => .ok s
  | .error (.panicked m) => .error (.panicked m)
  | .error (.err _) => .error (.panicked "called Result::unwrap() on an Err value")

/-- Outcome of running the external clang-format subprocess on a code
string: spawn failure, stdin write failure, wait failure, or completed with
an exit code and a stdout that either is valid UTF-8 (some text) or not
(none). -/
inductive JSResult where
  | spawnFailure
  | writeFailure
  | waitFailure
  | output (stdoutUtf8 : Option String) (exitCode : Int)
deriving DecidableEq, Repr

/-- The external formatter as a deterministic filter from the embedded code
text to a subprocess outcome, as prescribed by the specification. -/
def JSFilter : Type := String → JSResult

@[simp] theorem except_bind_ok {α β ε : Type} (a : α) (f : α → Except ε β) :
    (Except.ok a >>= f : Except ε β) = f a := rfl

@[simp] theorem except_bind_error {α β ε : Type} (e : ε) (f : α → Except ε β) :
    (Except.error e >>= f : Except ε β) = Except.error e := rfl

@[simp] theorem except_pure_eq_ok {α ε : Type} (a : α) :
    (pure a : Except ε α) = Except.ok a := rfl

/-
Kernel-computable models of the Rust str primitives used by the source
(the library versions String.trim, String.startsWith, String.splitOn are
defined by well-founded recursion on byte positions and do not reduce in
the kernel).  Rust char::is_whitespace is modelled by Char.isWhitespace
(space, tab, carriage return, newline).
-/

/-- List-level prefix test. -/
def listIsPrefix : List Char → List Char → Bool
  | _, [] => true
  | [], _ :: _ => false
  | c :: cs, p :: ps => c == p && listIsPrefix cs ps

/-- Rust str::starts_with. -/
def strStartsWith (s p : String) : Bool :=
  listIsPrefix s.data p.data

/-- Rust str::trim: drop whitespace from both ends. -/
def rustTrim (s : String) : String :=
  String.mk
    (((s.data.dropWhile Char.isWhitespace).reverse.dropWhile
      Char.isWhitespace).reverse)

/-- Split a character list at every newline. -/
def splitAtNewlines : List Char → List (List Char)
  | [] => [[]]
  | c :: cs =>
      if c == '\n' then [] :: splitAtNewlines cs
      else
        match splitAtNewlines cs with
        | [] => [[c]]
        | l :: ls => (c :: l) :: ls

/-- Rust str::lines on an already-trimmed string: split on newline,
dropping a trailing carriage return of each line; the empty string yields no
lines. -/
def rustLines (s : String) : List String :=
  if s.isEmpty then []
  else (splitAtNewlines s.data).map
    (fun l => String.mk (if l.getLast? == some '\r' then l.dropLast else l))

/-- fn format_comment. -/
def format_comment (s : State) (node : TSNode) : Except Failure State :=
  let text := node.text
  if strStartsWith (rustTrim text) "##" then
    .ok (s.print (rustTrim text))
  else
    let line := rustTrim (if strStartsWith text "#" then text.drop 1 else text)
    let s := s.print "#"
    let s := if strStartsWith line "VRML" then s else s.print " "
    .ok (s.print line)

/-- The enumerated print loop of fn format_extern. -/
def externLoop (s : State) (l : List TSNode) (i : Nat) : State :=
  match l with
  | [] => s
  | child :: rest =>
      let s := if i != 0 then s.print " " else s
      externLoop (s.print child.text) rest (i + 1)

/-- fn format_extern. -/
def format_extern (s : State) (node : TSNode) : Except Failure State :=
  .ok (externLoop s node.children.toList 0)

/-- The per-line print loop of fn format_javascript (multi-line case). -/
def jsLinesLoop (s : State) (lines : List String) : State :=
  match lines with
  | [] => s
  | line :: rest => jsLinesLoop ((s.indent).println line) rest

/-- fn format_javascript, with the clang-format subprocess replaced by the
filter.  The .expect calls and the missing check of the exit status are
modelled exactly: a spawn, write or wait failure and non-UTF-8 output
panic; the exit code is never inspected. -/
def format_javascript (flt : JSFilter) (s : State) (node : TSNode) :
    Except Failure State := do
  let oneliner := node.startPoint.row == node.endPoint.row
  let opener ← errAtLoc (node.child 0) node
  let code ← errAtLoc (node.children.toList.find? (fun n => n.kind == "code")) node
  match flt code.text with
  | .spawnFailure => .error (.panicked "clang-format command failed to start")
  | .writeFailure => .error (.panicked "Failed to write to stdin")
  | .waitFailure => .error (.panicked "Failed to read stdout")
  | .output none _ => .error (.panicked "Output is not valid UTF-8")
  | .output (some out) _ =>
      let formatted_code := rustTrim out
      if oneliner then
        let s := s.print opener.text
        let s := s.print " "
        let s := s.print formatted_code
        .ok (s.print " >%")
      else
        let s := s.println opener.text
        let s := { s with level := s.level + 1 }
        let s := jsLinesLoop s (rustLines formatted_code)
        let s := { s with level := s.level - 1 }
        .ok ((s.indent).print ">%")

/-- The four column widths returned by fn field_sizes (a Rust 4-tuple of
usize, named after the local accumulators). -/
structure FieldSizes where
  kind_size : Nat
  type_size : Nat
  name_size : Nat
  value_size : Nat
deriving DecidableEq, Repr

/-
The mutually recursive formatting engine.  Rust `for` loops over collected
child vectors become helper functions over `List TSNode`; the Rust
`match (child.kind(), ok)` dispatches become if-chains on the same
conditions, in source order.  In format_document and format_vector the
source compares `last_node != node` against the node currently being
formatted; a node is never structurally equal to one of its descendants, so
this comparison is carried as the explicit flag `lastIsParent`.
-/
mutual

/-- fn format_node: dispatch over the node kind. -/
def format_node (flt : JSFilter) (s : State) (node : TSNode) :
    Except Failure State :=
  if node.kind == "node" then format_node_def flt s node
  else if node.kind == "comment" then format_comment s node
  else if node.kind == "extern" then format_extern s node
  else if node.kind == "property" then format_property flt s node
  else if node.kind == "proto" then format_proto flt s node
  else if node.kind == "vector" then format_vector flt s node
  else if node.kind == "javascript_block" then format_javascript flt s node
  else if node.kind == "javascript_expression" then format_javascript flt s node
  else s.print_node node
termination_by 4 * sizeOf node + 3
decreasing_by
  all_goals omega

/-- fn format_document. -/
def format_document (flt : JSFilter) (s : State) (node : TSNode) :
    Except Failure State :=
  documentLoop flt s node.children.toList node true
termination_by 4 * sizeOf node + 2
decreasing_by
  all_goals
    (have hc := TSNode.sizeOf_children node
     have ht := TSNodeList.sizeOf_toList node.children
     omega)

/-- The child loop of fn format_document. -/
def documentLoop (flt : JSFilter) (s : State) (l : List TSNode)
    (last_node : TSNode) (lastIsParent : Bool) : Except Failure State :=
  match l with
  | [] => .ok s
  | child :: rest => do
      let s ←
        if child.kind == "comment" then do
          let s :=
            if last_node.endPoint.row == child.startPoint.row then s.print " "
            else if lastIsParent == false
                && child.startPoint.row - last_node.endPoint.row > 1 then
              s.println ""
            else s
          let s ← format_comment s child
          pure (s.println "")
        else if child.kind == "extern" then do
          let s :=
            if lastIsParent == false
                && (last_node.kind == "comment"
                    || child.startPoint.row - last_node.endPoint.row > 1) then
              s.println ""
            else s
          let s ← format_extern s child
          pure (s.println "")
        else if child.kind == "proto" then do
          format_proto flt (s.println "") child
        else do
          format_node flt (s.println "") child
      documentLoop flt s rest child false
termination_by 4 * sizeOf l
decreasing_by
  all_goals first
    | omega
    | (simp; omega)
    | simp

/-- fn format_proto. -/
def format_proto (flt : JSFilter) (s : State) (node : TSNode) :
    Except Failure State := do
  let name ← errAtLoc (node.child_by_field_name "proto") node
  let fields :=
    (node.children.toList.filter (fun n => n.named)).filter
      (fun n => n.kind == "field")
  let (s, sizes) ← field_sizes flt s fields
  let s := s.print "PROTO "
  let s := s.print name.text
  let s := s.print " ["
  let s := { s with level := 1 }
  let s ← protoHeaderLoop flt s node.children.toList sizes false 0
  let s := s.println ""
  let s := s.println "]"
  let s := s.println "\x7b"
  let s := { s with level := 0 }
  let s ← protoBodyLoop flt s node.children.toList false
  .ok (s.print "\x7d")
termination_by 4 * sizeOf node + 2
decreasing_by
  all_goals
    (have hc := TSNode.sizeOf_children node
     have ht := TSNodeList.sizeOf_toList node.children
     have hf1 := sizeOf_filter_le (fun n => n.named) node.children.toList
     have hf2 := sizeOf_filter_le (fun n => n.kind == "field")
       (node.children.toList.filter (fun n => n.named))
     omega)

/-- The header loop of fn format_proto (fields and comments between the
brackets). -/
def protoHeaderLoop (flt : JSFilter) (s : State) (l : List TSNode)
    (sizes : FieldSizes) (ok : Bool) (last_line : Nat) : Except Failure State :=
  match l with
  | [] => .ok s
  | child :: rest =>
      if child.kind == "[" && ok == false then
        protoHeaderLoop flt s rest sizes true last_line
      else if child.kind == "]" && ok then
        protoHeaderLoop flt s rest sizes false last_line
      else if child.kind == "field" && ok then do
        let s := (s.println "").indent
        let last_line := child.endPoint.row
        let atCol := s.level * s.num_spaces + sizes.kind_size
        let s ← protoFieldParts flt s child.children.toList atCol
          sizes.type_size sizes.name_size
        protoHeaderLoop flt s rest sizes ok last_line
      else if child.kind == "comment" && ok then do
        let s :=
          if child.startPoint.row != last_line then (s.println "").indent
          else
            s.print (spaces ((s.level * s.num_spaces + sizes.kind_size
              + sizes.type_size + sizes.name_size + sizes.value_size) - s.col))
        let s ← format_comment s child
        protoHeaderLoop flt s rest sizes ok s.row
      else protoHeaderLoop flt s rest sizes ok last_line
termination_by 4 * sizeOf l
decreasing_by
  all_goals
    (try (have hc := TSNode.sizeOf_children h
          have ht := TSNodeList.sizeOf_toList h.children))
    first
    | omega
    | (simp; omega)
    | simp

/-- The four aligned parts of one field line in the proto header
(lines 233-264 of the source, the body of the ("field", true) arm). -/
def protoFieldParts (flt : JSFilter) (s : State) (parts : List TSNode)
    (atCol size1 size2 : Nat) : Except Failure State :=
  match parts with
  | [] => .error (.err "Could not extract field kind")
  | kindN :: r1 => do
      let s ← format_node flt s kindN
      let s := s.print (spaces (atCol - s.col))
      match r1 with
      | [] => .error (.err "Could not extract field type")
      | typeN :: r2 => do
          let s ← format_node flt s typeN
          let atCol := atCol + size1
          let s := s.print (spaces (atCol - s.col))
          match r2 with
          | [] => .error (.err "Could not extract field name")
          | nameN :: r3 => do
              let s ← format_node flt s nameN
              let atCol := atCol + size2
              let s := s.print (spaces (atCol - s.col))
              match r3 with
              | [] => .error (.err "Could not extract field value")
              | valueN :: _ => format_node flt s valueN
termination_by 4 * sizeOf parts + 1
decreasing_by
  all_goals first
    | omega
    | (simp; omega)
    | simp

/-- The body loop of fn format_proto (children between the braces). -/
def protoBodyLoop (flt : JSFilter) (s : State) (l : List TSNode) (ok : Bool) :
    Except Failure State :=
  match l with
  | [] => .ok s
  | child :: rest =>
      if child.kind == "\x7b" && ok == false then
        protoBodyLoop flt s rest true
      else if child.kind == "node" && ok then do
        let s ← format_node_def flt s child
        protoBodyLoop flt (s.println "") rest ok
      else if child.kind == "comment" && ok then do
        let s ← format_comment s child
        protoBodyLoop flt (s.println "") rest ok
      else if child.kind == "javascript_block" && ok then do
        let s ← format_node flt s child
        protoBodyLoop flt (s.println "") rest ok
      else protoBodyLoop flt s rest ok
termination_by 4 * sizeOf l
decreasing_by
  all_goals first
    | omega
    | (simp; omega)
    | simp

/-- fn field_sizes: the measurement pass.  It saves the buffer and the
inplace flag, forces capture mode, measures every field and restores the
two saved values. -/
def field_sizes (flt : JSFilter) (s : State) (fields : List TSNode) :
    Except Failure (State × FieldSizes) := do
  let saved_formatted := s.formatted
  let saved_inplace := s.arguments.inplace
  let s := { s with formatted := "",
                    arguments := { s.arguments with inplace := true } }
  let (s, sizes) ← fieldSizesLoop flt s fields 0 0 0 0
  let s := { s with formatted := saved_formatted,
                    arguments := { s.arguments with inplace := saved_inplace } }
  .ok (s, sizes)
termination_by 4 * sizeOf fields + 1
decreasing_by
  all_goals omega

/-- The field loop of fn field_sizes, carrying the four running maxima. -/
def fieldSizesLoop (flt : JSFilter) (s : State) (l : List TSNode)
    (kind_size type_size name_size value_size : Nat) :
    Except Failure (State × FieldSizes) :=
  match l with
  | [] => .ok (s, ⟨kind_size, type_size, name_size, value_size⟩)
  | field :: rest => do
      let (s, tk, tt, tn, tv) ← measureField flt s field.children.toList
      let padding := s.num_spaces
      fieldSizesLoop flt s rest
        (max kind_size (tk + padding)) (max type_size (tt + padding))
        (max name_size (tn + padding)) (max value_size (tv + padding))
termination_by 4 * sizeOf l
decreasing_by
  all_goals
    (try (have hc := TSNode.sizeOf_children h
          have ht := TSNodeList.sizeOf_toList h.children))
    first
    | omega
    | (simp; omega)
    | simp

/-- The per-field body of the field_sizes loop: format the four parts in
capture mode and return their measured byte lengths (the .unwrap() calls on
the child accesses and on the formatting results are modelled as panics). -/
def measureField (flt : JSFilter) (s : State) (parts : List TSNode) :
    Except Failure (State × Nat × Nat × Nat × Nat) :=
  match parts with
  | [] => .error (.panicked "called Option::unwrap() on a None value")
  | kindN :: r1 => do
      let s ← unwrapResult (format_node flt s kindN)
      let text_kind := s.formatted
      let s := { s with formatted := "" }
      match r1 with
      | [] => .error (.panicked "called Option::unwrap() on a None value")
      | typeN :: r2 => do
          let s ← unwrapResult (format_node flt s typeN)
          let text_type := s.formatted
          let s := { s with formatted := "" }
          match r2 with
          | [] => .error (.panicked "called Option::unwrap() on a None value")
          | nameN :: r3 => do
              let s ← unwrapResult (format_node flt s nameN)
              let text_name := s.formatted
              let s := { s with formatted := "" }
              match r3 with
              | [] => .error (.panicked "called Option::unwrap() on a None value")
              | valueN :: _ => do
                  let s ← unwrapResult (format_node flt s valueN)
                  let text_value := s.formatted
                  let s := { s with formatted := "" }
                  .ok (s, text_kind.utf8ByteSize, text_type.utf8ByteSize,
                       text_name.utf8ByteSize, text_value.utf8ByteSize)
termination_by 4 * sizeOf parts + 1
decreasing_by
  all_goals first
    | omega
    | (simp; omega)
    | simp

/-- fn format_node_def.  The USE arm returns before the body is emitted;
it is therefore the first branch here (the three match arms of the source
are mutually exclusive on child(0).kind). -/
def format_node_def (flt : JSFilter) (s : State) (node : TSNode) :
    Except Failure State := do
  let oneliner := node.startPoint.row == node.endPoint.row
  let maybe_def_or_use ← errAtLoc (node.child 0) node
  if maybe_def_or_use.kind == "USE" then do
    let identifier ← errAtLoc (node.named_child 0) node
    let s := s.print "USE "
    .ok (s.print identifier.text)
  else do
    let s ←
      if maybe_def_or_use.kind == "DEF" then do
        let s := s.print "DEF "
        let def_identifier ← errAtLoc (node.named_child 0) node
        let s := s.print def_identifier.text
        let s := s.print " "
        let identifier ← errAtLoc (node.named_child 1) node
        pure (s.print identifier.text)
      else do
        let identifier ← errAtLoc (node.named_child 0) node
        pure (s.print identifier.text)
    let s := s.print " \x7b"
    let s := { s with level := s.level + 1 }
    let s ← nodeBodyLoop flt s node.children.toList oneliner false 0
    let s := { s with level := s.level - 1 }
    let s := if oneliner then s.print " " else (s.println "").indent
    .ok (s.print "\x7d")
termination_by 4 * sizeOf node + 2
decreasing_by
  all_goals
    (have hc := TSNode.sizeOf_children node
     have ht := TSNodeList.sizeOf_toList node.children
     omega)

/-- The body loop of fn format_node_def. -/
def nodeBodyLoop (flt : JSFilter) (s : State) (l : List TSNode)
    (oneliner : Bool) (ok : Bool) (last_row : Nat) : Except Failure State :=
  match l with
  | [] => .ok s
  | child :: rest =>
      if child.kind == "\x7b" && ok == false then
        nodeBodyLoop flt s rest oneliner true child.endPoint.row
      else if child.kind == "\x7d" && ok then
        nodeBodyLoop flt s rest oneliner false child.endPoint.row
      else if child.kind == "comment" && ok then do
        let s :=
          if !oneliner && last_row != child.startPoint.row then
            (s.println "").indent
          else if last_row == child.startPoint.row then s.print " "
          else s
        let s ← format_comment s child
        nodeBodyLoop flt s rest oneliner ok child.endPoint.row
      else if ok then do
        let s := if !oneliner then (s.println "").indent else s.print " "
        let s ← format_node flt s child
        nodeBodyLoop flt s rest oneliner ok child.endPoint.row
      else nodeBodyLoop flt s rest oneliner ok last_row
termination_by 4 * sizeOf l
decreasing_by
  all_goals first
    | omega
    | (simp; omega)
    | simp

/-- fn format_property. -/
def format_property (flt : JSFilter) (s : State) (node : TSNode) :
    Except Failure State :=
  propertyLoop flt s node.children.toList true
termination_by 4 * sizeOf node + 2
decreasing_by
  all_goals
    (have hc := TSNode.sizeOf_children node
     have ht := TSNodeList.sizeOf_toList node.children
     omega)

/-- The child loop of fn format_property. -/
def propertyLoop (flt : JSFilter) (s : State) (l : List TSNode)
    (first : Bool) : Except Failure State :=
  match l with
  | [] => .ok s
  | child :: rest => do
      let s := if first == false then s.print " " else s
      let s ← format_node flt s child
      propertyLoop flt s rest false
termination_by 4 * sizeOf l
decreasing_by
  all_goals first
    | omega
    | (simp; omega)
    | simp

/-- fn format_vector. -/
def format_vector (flt : JSFilter) (s : State) (node : TSNode) :
    Except Failure State :=
  let oneliner := node.startPoint.row == node.endPoint.row
  vectorLoop flt s node.children.toList oneliner node node true false
termination_by 4 * sizeOf node + 2
decreasing_by
  all_goals
    (have hc := TSNode.sizeOf_children node
     have ht := TSNodeList.sizeOf_toList node.children
     omega)

/-- The element loop of fn format_vector.  vnode is the vector node itself
(the source re-points last_node at it when "[" is seen). -/
def vectorLoop (flt : JSFilter) (s : State) (l : List TSNode)
    (oneliner : Bool) (vnode : TSNode) (last_node : TSNode)
    (lastIsParent : Bool) (brackets : Bool) : Except Failure State :=
  match l with
  | [] => .ok s
  | child :: rest =>
      if child.kind == "[" then
        let s := s.print "["
        let s := if oneliner == false then { s with level := s.level + 1 } else s
        vectorLoop flt s rest oneliner vnode vnode true true
      else if child.kind == "]" then
        let s :=
          if oneliner then s.print " ]"
          else
            let s := { s with level := s.level - 1 }
            ((s.println "").indent).print "]"
        vectorLoop flt s rest oneliner vnode child false brackets
      else if child.kind == "," then
        vectorLoop flt (s.print ",") rest oneliner vnode child false brackets
      else if child.kind == "comment" then do
        let same_line := last_node.endPoint.row == child.startPoint.row
        let s := if same_line == false then (s.println "").indent else s
        let s := if same_line then s.print " " else s
        let s ← format_comment s child
        vectorLoop flt s rest oneliner vnode child false brackets
      else do
        let s :=
          if oneliner && (brackets || lastIsParent == false) then s.print " "
          else if oneliner == false then (s.println "").indent
          else s
        let s ← format_node flt s child
        vectorLoop flt s rest oneliner vnode child false brackets
termination_by 4 * sizeOf l
decreasing_by
  all_goals first
    | omega
    | (simp; omega)
    | simp

end

mutual
/-- fn find_first_error_node: the node itself is checked before its
children (pre-order), children left to right. -/
def find_first_error_node (node : TSNode) : Option TSNode :=
  if node.is_error then some node
  else findErrorInList node.children.toList
termination_by 2 * sizeOf node + 1
decreasing_by
  all_goals
    (have hc := TSNode.sizeOf_children node
     have ht := TSNodeList.sizeOf_toList node.children
     omega)

/-- The child loop of fn find_first_error_node (for with early return). -/
def findErrorInList (l : List TSNode) : Option TSNode :=
  match l with
  | [] => none
  | child :: rest =>
      match find_first_error_node child with
      | some error_node => some error_node
      | none => findErrorInList rest
termination_by 2 * sizeOf l
decreasing_by
  all_goals first
    | omega
    | (simp; omega)
    | simp
end

mutual
/-- Model of tree_sitter Node::has_error on the root, per the input
contract of the specification: the tree contains an error-kind node. -/
def TSNode.has_error (n : TSNode) : Bool :=
  n.is_error || hasErrorInList n.children.toList
termination_by 2 * sizeOf n + 1
decreasing_by
  all_goals
    (have hc := TSNode.sizeOf_children n
     have ht := TSNodeList.sizeOf_toList n.children
     omega)

def hasErrorInList : List TSNode → Bool
  | [] => false
  | child :: rest => child.has_error || hasErrorInList rest
termination_by l => 2 * sizeOf l
decreasing_by
  all_goals first
    | omega
    | (simp; omega)
    | simp
end

/-- The State value constructed by fn beautify before formatting begins:
all counters zero, empty buffer, and num_spaces hardcoded to 2. -/
def initState (arguments : Arguments) : State :=
  { arguments := arguments,
    col := 0,
    row := 0,
    level := 0,
    extra_indentation := 0,
    formatted := "",
    stdout := "",
    num_spaces := 2 }

/-- fn beautify.  Parsing is external: the function receives the parse tree
root instead of running tree-sitter.  The source returns
Ok(state.formatted); the model returns the final state so that both the
buffer and the stdout stream stay observable. -/
def beautify (flt : JSFilter) (root : TSNode) (arguments : Arguments) :
    Except Failure State :=
  if root.has_error then
    match find_first_error_node root with
    | some error_node =>
        .error (.err ("Parsed file contain errors (at line "
          ++ toString (error_node.startPoint.row + 1) ++ ")."))
    | none => .error (.err "An error occurred, but no ERROR node was found.")
  else do
    let state := initState arguments
    let state ← format_document flt state root
    .ok (state.println "")

mutual
/-- Specification-side definition: all error nodes of the tree in
pre-order (a node before its descendants), left to right. -/
def preorderErrors (n : TSNode) : List TSNode :=
  (if n.is_error then [n] else []) ++ preorderErrorsList n.children.toList
termination_by 2 * sizeOf n + 1
decreasing_by
  all_goals
    (have hc := TSNode.sizeOf_children n
     have ht := TSNodeList.sizeOf_toList n.children
     omega)

def preorderErrorsList : List TSNode → List TSNode
  | [] => []
  | child :: rest => preorderErrors child ++ preorderErrorsList rest
termination_by l => 2 * sizeOf l
decreasing_by
  all_goals first
    | omega
    | (simp; omega)
    | simp
end

mutual
/-- Specification-side definition following the words of the claim: all
error nodes of the tree in deepest-first (post-order) order, left to
right — a node after its descendants. -/
def postorderErrors (n : TSNode) : List TSNode :=
  postorderErrorsList n.children.toList ++ (if n.is_error then [n] else [])
termination_by 2 * sizeOf n + 1
decreasing_by
  all_goals
    (have hc := TSNode.sizeOf_children n
     have ht := TSNodeList.sizeOf_toList n.children
     omega)

def postorderErrorsList : List TSNode → List TSNode
  | [] => []
  | child :: rest => postorderErrors child ++ postorderErrorsList rest
termination_by l => 2 * sizeOf l
decreasing_by
  all_goals first
    | omega
    | (simp; omega)
    | simp
end

mutual
/-- fn find_first_error_node returns the head of the pre-order error list:
the first error node with a node reported before its descendants, left to
right. -/
theorem find_eq_preorder_head (n : TSNode) :
    find_first_error_node n = (preorderErrors n).head? := by
  rw [find_first_error_node, preorderErrors]
  cases h : n.is_error with
  | true => simp
  | false => simp [findList_eq_preorder_head n.children.toList]
termination_by 2 * sizeOf n + 1
decreasing_by
  all_goals
    (have hc := TSNode.sizeOf_children n
     have ht := TSNodeList.sizeOf_toList n.children
     omega)

theorem findList_eq_preorder_head (l : List TSNode) :
    findErrorInList l = (preorderErrorsList l).head? := by
  match l with
  | [] => rw [findErrorInList, preorderErrorsList]; rfl
  | child :: rest =>
    rw [findErrorInList, preorderErrorsList]
    rw [find_eq_preorder_head child]
    cases hp : preorderErrors child with
    | nil => simp [findList_eq_preorder_head rest]
    | cons e es => simp
termination_by 2 * sizeOf l
decreasing_by
  all_goals first
    | omega
    | (simp; omega)
    | simp
end

mutual
/-- has_error holds exactly when the pre-order error list is nonempty. -/
theorem has_error_iff_preorder (n : TSNode) :
    n.has_error = true ↔ preorderErrors n ≠ [] := by
  rw [TSNode.has_error, preorderErrors]
  cases h : n.is_error with
  | true => simp
  | false => simp [hasErrorList_iff_preorder n.children.toList]
termination_by 2 * sizeOf n + 1
decreasing_by
  all_goals
    (have hc := TSNode.sizeOf_children n
     have ht := TSNodeList.sizeOf_toList n.children
     omega)

theorem hasErrorList_iff_preorder (l : List TSNode) :
    hasErrorInList l = true ↔ preorderErrorsList l ≠ [] := by
  match l with
  | [] => rw [hasErrorInList, preorderErrorsList]; simp
  | child :: rest =>
    rw [hasErrorInList, preorderErrorsList]
    simp [has_error_iff_preorder child, hasErrorList_iff_preorder rest]
    tauto
termination_by 2 * sizeOf l
decreasing_by
  all_goals first
    | omega
    | (simp; omega)
    | simp
end

theorem utf8ByteSize_append (a b : String) :
    (a ++ b).utf8ByteSize = a.utf8ByteSize + b.utf8ByteSize := by
  cases a with
  | mk d1 =>
    cases b with
    | mk d2 =>
      show (String.mk (d1 ++ d2)).utf8ByteSize = _
      simp [String.utf8ByteSize_mk]

@[simp] theorem utf8ByteSize_empty : ("" : String).utf8ByteSize = 0 := rfl

theorem spaces_append (a b : Nat) : spaces a ++ spaces b = spaces (a + b) := by
  show String.mk (List.replicate a ' ') ++ String.mk (List.replicate b ' ') = _
  have : String.mk (List.replicate a ' ') ++ String.mk (List.replicate b ' ')
      = String.mk (List.replicate a ' ' ++ List.replicate b ' ') := rfl
  rw [this, spaces, ← List.replicate_add]

@[simp] theorem spaces_zero : spaces 0 = "" := rfl

theorem spaces_one : spaces 1 = " " := by decide

theorem print_print (s : State) (a b : String) :
    (s.print a).print b = s.print (a ++ b) := by
  cases h : s.arguments.inplace <;>
    simp [State.print, h, utf8ByteSize_append, String.append_assoc, Nat.add_assoc]

theorem print_empty (s : State) : s.print "" = s := by
  cases h : s.arguments.inplace <;> simp [State.print, h]

theorem printTimes_spaces (s : State) (k : Nat) :
    (n : Nat) → s.printTimes (spaces k) n = s.print (spaces (n * k))
  | 0 => by simp [State.printTimes, print_empty]
  | n + 1 => by
      rw [State.printTimes, printTimes_spaces (s.print (spaces k)) k n,
        print_print, spaces_append]
      have : k + n * k = (n + 1) * k := by ring
      rw [this]

/-- State::indent emits exactly level * num_spaces + extra_indentation
spaces. -/
theorem indent_eq_print_spaces (s : State) :
    s.indent = s.print (spaces (s.level * s.num_spaces + s.extra_indentation)) := by
  rw [State.indent, ← spaces_one, printTimes_spaces, printTimes_spaces,
    print_print, spaces_append]
  have : s.level * s.num_spaces + s.extra_indentation * 1
      = s.level * s.num_spaces + s.extra_indentation := by ring
  rw [this]

/-- Claim C10 (confirmed): the indentation width is exactly 2 spaces per
level.  fn beautify hardcodes num_spaces to 2 in the initial state
regardless of the command-line arguments (the Arguments struct has no
spaces-per-level field), and State::indent renders exactly
level * 2 + extra_indentation spaces whenever num_spaces = 2. -/
theorem C10_theorem (arguments : Arguments) (s : State) (h : s.num_spaces = 2) :
    (initState arguments).num_spaces = 2 ∧
    s.indent = s.print (spaces (s.level * 2 + s.extra_indentation)) := by
  constructor
  · rfl
  · rw [indent_eq_print_spaces, h]

theorem C10_witness :
    (initState ⟨[], true⟩).num_spaces = 2 ∧
    (initState ⟨[], true⟩).indent
      = (initState ⟨[], true⟩).print
          (spaces ((initState ⟨[], true⟩).level * 2
            + (initState ⟨[], true⟩).extra_indentation)) :=
  C10_theorem ⟨[], true⟩ (initState ⟨[], true⟩) rfl

/-- Concrete-node constructor used by the witnesses and counterexamples. -/
def mkNode (kind : String) (named : Bool) (fieldName : Option String)
    (sr sc er ec : Nat) (text : String) (cs : List TSNode) : TSNode :=
  .mk kind named fieldName ⟨sr, sc⟩ ⟨er, ec⟩ text (TSNodeList.ofList cs)

/-- Claim C5 (corrected): spawn failure, stdin-write failure, wait failure
and non-UTF-8 output each abort the run (as a Rust panic) before any text
of the block is emitted; but the claim is wrong about the exit status: the
code never inspects it, so a formatter exiting non-zero does not make the
run fail (see C5_counterexample). -/
theorem C5_theorem (flt : JSFilter) (s : State) (node c0 code : TSNode)
    (ec : Int)
    (h0 : node.child 0 = some c0)
    (hc : node.children.toList.find? (fun n => n.kind == "code") = some code)
    (hf : flt code.text = .spawnFailure ∨ flt code.text = .writeFailure
        ∨ flt code.text = .waitFailure ∨ flt code.text = .output none ec) :
    ∃ msg, format_javascript flt s node = .error (.panicked msg) := by
  rw [format_javascript]
  rw [h0, hc]
  simp only [errAtLoc, except_bind_ok]
  rcases hf with hf | hf | hf | hf <;> rw [hf] <;> exact ⟨_, rfl⟩

def C5_node : TSNode :=
  mkNode "javascript_block" true none 0 0 0 20 "%< code(); >%"
    [ mkNode "%<" false none 0 0 0 2 "%<" [],
      mkNode "code" true none 0 3 0 11 "code();" [],
      mkNode ">%" false none 0 12 0 14 ">%" [] ]

/-- A filter whose subprocess cannot be spawned. -/
def C5_spawnFailFilter : JSFilter := fun _ => .spawnFailure

/-- A filter whose subprocess exits with status 1 after printing valid
UTF-8 text on stdout. -/
def C5_exit1Filter : JSFilter := fun _ => .output (some "formatted();") 1

theorem C5_witness :
    ∃ msg, format_javascript C5_spawnFailFilter (initState ⟨[], true⟩) C5_node
      = .error (.panicked msg) :=
  C5_theorem C5_spawnFailFilter (initState ⟨[], true⟩) C5_node
    (mkNode "%<" false none 0 0 0 2 "%<" [])
    (mkNode "code" true none 0 3 0 11 "code();" [])
    0
    (by simp [C5_node, mkNode, TSNode.child, TSNode.children, TSNodeList.toList,
          TSNodeList.ofList])
    (by simp [C5_node, mkNode, TSNode.children, TSNodeList.toList,
          TSNodeList.ofList, List.find?, TSNode.kind])
    (Or.inl rfl)

/-- The claim as stated is false: a subprocess failure of the kind
"non-zero exit status" does not make formatting fail — the exit code is
ignored and the stdout text is emitted as the formatted code. -/
theorem C5_counterexample :
    format_javascript C5_exit1Filter (initState ⟨[], true⟩) C5_node
      = .ok ⟨ "%< formatted(); >%", ⟨[], true⟩, "", 18, 0, 0, 0, 2⟩ := by
  rw [format_javascript]
  simp [C5_exit1Filter, C5_node, mkNode, TSNode.child, TSNode.children,
    TSNodeList.toList, TSNodeList.ofList, List.find?, TSNode.kind, TSNode.text,
    TSNode.startPoint, TSNode.endPoint, errAtLoc, State.print, initState]
  decide

/-- Dispatch lemma: on a node whose kind has no special formatter,
fn format_node prints the verbatim token text. -/
theorem format_node_plain (flt : JSFilter) (s : State) (n : TSNode)
    (h1 : (n.kind == "node") = false) (h2 : (n.kind == "comment") = false)
    (h3 : (n.kind == "extern") = false) (h4 : (n.kind == "property") = false)
    (h5 : (n.kind == "proto") = false) (h6 : (n.kind == "vector") = false)
    (h7 : (n.kind == "javascript_block") = false)
    (h8 : (n.kind == "javascript_expression") = false) :
    format_node flt s n = .ok (s.print n.text) := by
  rw [format_node]
  simp [h1, h2, h3, h4, h5, h6, h7, h8, State.print_node]

/-- Dispatch lemma for node instances. -/
theorem format_node_node (flt : JSFilter) (s : State) (n : TSNode)
    (h : (n.kind == "node") = true) :
    format_node flt s n = format_node_def flt s n := by
  rw [format_node]
  simp [h]

/-- Dispatch lemma for vector literals. -/
theorem format_node_vector (flt : JSFilter) (s : State) (n : TSNode)
    (h1 : (n.kind == "vector") = true)
    (h2 : (n.kind == "node") = false) (h3 : (n.kind == "comment") = false)
    (h4 : (n.kind == "extern") = false) (h5 : (n.kind == "property") = false)
    (h6 : (n.kind == "proto") = false) :
    format_node flt s n = format_vector flt s n := by
  rw [format_node]
  simp [h1, h2, h3, h4, h5, h6]

/-- Dispatch lemma for comments. -/
theorem format_node_comment (flt : JSFilter) (s : State) (n : TSNode)
    (h1 : (n.kind == "comment") = true) (h2 : (n.kind == "node") = false) :
    format_node flt s n = format_comment s n := by
  rw [format_node]
  simp [h1, h2]

/-- A filter that stands in for clang-format in runs that contain no
embedded-code block (its value is irrelevant there). -/
def idFlt : JSFilter := fun _ => .output (some "") 0

/-- A well-formed field node (field SFFloat a 1) with its four token
children, used by several witnesses. -/
def fieldNodeA : TSNode :=
  mkNode "field" true none 1 2 1 19 "field SFFloat a 1"
    [ mkNode "fieldkw" false none 1 2 1 7 "field" [],
      mkNode "type" true none 1 8 1 15 "SFFloat" [],
      mkNode "identifier" true none 1 16 1 17 "a" [],
      mkNode "number" true none 1 18 1 19 "1" [] ]

/-- Claim C4 (corrected): fn field_sizes saves and restores exactly the
output buffer and the inplace mode flag around the measurement pass; the
cursor column and row are NOT part of the saved state (see
C4_counterexample, where the column leaks).  Whenever the pass succeeds,
the buffer and the flag seen by the subsequent real emission are unchanged. -/
theorem C4_theorem (flt : JSFilter) (s : State) (fields : List TSNode)
    (s2 : State) (sizes : FieldSizes)
    (h : field_sizes flt s fields = .ok (s2, sizes)) :
    s2.formatted = s.formatted ∧ s2.arguments.inplace = s.arguments.inplace := by
  rw [field_sizes] at h
  cases hloop : fieldSizesLoop flt
      { s with formatted := "",
               arguments := { s.arguments with inplace := true } }
      fields 0 0 0 0 with
  | error e => rw [hloop] at h; simp at h
  | ok p =>
      obtain ⟨s1, sz⟩ := p
      rw [hloop] at h
      simp at h
      obtain ⟨h1, h2⟩ := h
      rw [← h1]
      exact ⟨rfl, rfl⟩

set_option maxHeartbeats 2000000 in
theorem C4_witness :
    ∃ s2 sizes,
      field_sizes idFlt (initState ⟨[], true⟩) [fieldNodeA] = .ok (s2, sizes) ∧
      s2.formatted = (initState ⟨[], true⟩).formatted ∧
      s2.arguments.inplace = (initState ⟨[], true⟩).arguments.inplace := by
  have heq : field_sizes idFlt (initState ⟨[], true⟩) [fieldNodeA]
      = .ok (⟨"", ⟨[], true⟩, "", 14, 0, 0, 0, 2⟩, ⟨7, 9, 3, 3⟩) := by
    rw [field_sizes]
    simp [fieldSizesLoop, measureField, unwrapResult, format_node_plain,
      fieldNodeA, mkNode, TSNode.kind, TSNode.children, TSNode.text,
      TSNodeList.toList, TSNodeList.ofList, State.print, initState]
    decide
  have h := C4_theorem idFlt (initState ⟨[], true⟩) [fieldNodeA] _ _ heq
  exact ⟨_, _, heq, h.1, h.2⟩

set_option maxHeartbeats 2000000 in
/-- The claim as stated is false: the measurement pass changes the cursor
column (from 0 to 14 here) and nothing restores it, so the emission state
that the real emission sees is not fully restored. -/
theorem C4_counterexample :
    field_sizes idFlt (initState ⟨[], true⟩) [fieldNodeA]
      = .ok (⟨"", ⟨[], true⟩, "", 14, 0, 0, 0, 2⟩, ⟨7, 9, 3, 3⟩)
    ∧ (initState ⟨[], true⟩).col = 0 := by
  constructor
  · rw [field_sizes]
    simp [fieldSizesLoop, measureField, unwrapResult, format_node_plain,
      fieldNodeA, mkNode, TSNode.kind, TSNode.children, TSNode.text,
      TSNodeList.toList, TSNodeList.ofList, State.print, initState]
    decide
  · rfl

/-- A field node with no children at all (source row 1). -/
def C6_badField : TSNode :=
  mkNode "field" true none 1 2 1 10 "field" []

/-- A proto node whose header contains the malformed field. -/
def C6_badProto : TSNode :=
  mkNode "proto" true none 0 0 3 1 "PROTO Y [ field ] \x7b \x7d"
    [ mkNode "PROTO" false none 0 0 0 5 "PROTO" [],
      mkNode "identifier" true (some "proto") 0 6 0 7 "Y" [],
      mkNode "[" false none 0 8 0 9 "[" [],
      C6_badField,
      mkNode "]" false none 2 0 2 1 "]" [],
      mkNode "\x7b" false none 3 0 3 0 "\x7b" [],
      mkNode "\x7d" false none 3 1 3 1 "\x7d" [] ]

/-- A proto node with no child carrying the field name "proto". -/
def C6_noNameProto : TSNode :=
  mkNode "proto" true none 4 2 5 1 "PROTO"
    [ mkNode "PROTO" false none 4 2 4 7 "PROTO" [] ]

/-- The claim as stated is false on the malformed-field half: the run
aborts with a Rust panic whose message carries no source location, not with
an error result carrying the location of the field (which sits at source
row 1). -/
theorem C6_counterexample :
    format_proto idFlt (initState ⟨[], true⟩) C6_badProto
      = .error (.panicked "called Option::unwrap() on a None value") := by
  rw [format_proto]
  simp [C6_badProto, C6_badField, mkNode, TSNode.child_by_field_name,
    TSNode.children, TSNode.fieldName, TSNode.named, TSNode.kind,
    TSNodeList.toList, TSNodeList.ofList, List.find?, List.filter, errAtLoc,
    field_sizes, fieldSizesLoop, measureField]

/-- Claim C2 (corrected): for every tree containing an error-kind node,
beautify fails with an error result before any text is emitted, and the
message names the line of the first error node in PRE-order (a node is
reported before its own descendants), left to right — not deepest-first as
the claim states (see C2_counterexample, where a nested error node is
deeper but the enclosing error node is reported). -/
theorem C2_theorem (flt : JSFilter) (root : TSNode) (arguments : Arguments)
    (h : root.has_error = true) :
    ∃ e, (preorderErrors root).head? = some e ∧
      beautify flt root arguments
        = .error (.err ("Parsed file contain errors (at line "
            ++ toString (e.startPoint.row + 1) ++ ").")) := by
  have hne := (has_error_iff_preorder root).mp h
  cases hp : preorderErrors root with
  | nil => exact absurd hp hne
  | cons e es =>
      refine ⟨e, by simp, ?_⟩
      rw [beautify]
      rw [find_eq_preorder_head, hp]
      simp [h]

/-- An error node that itself contains a deeper error node. -/
def C2_inner : TSNode :=
  mkNode "ERROR" true none 2 0 2 5 "zz" []

def C2_outer : TSNode :=
  mkNode "ERROR" true none 1 0 2 5 "yy zz" [C2_inner]

def C2_tree : TSNode :=
  mkNode "document" true none 0 0 3 0 "xx yy zz" [C2_outer]

theorem C2_witness :
    ∃ e, (preorderErrors C2_tree).head? = some e ∧
      beautify idFlt C2_tree ⟨[], true⟩
        = .error (.err ("Parsed file contain errors (at line "
            ++ toString (e.startPoint.row + 1) ++ ").")) :=
  C2_theorem idFlt C2_tree ⟨[], true⟩ (by
    rw [TSNode.has_error]
    simp [C2_tree, C2_outer, C2_inner, mkNode, TSNode.is_error, TSNode.kind,
      TSNode.children, TSNodeList.toList, TSNodeList.ofList, hasErrorInList,
      TSNode.has_error])

/-- The claim as stated is false: on this tree the deepest-first
(post-order) first error node starts at source row 2 (line 3), but the
message of beautify names line 2, the start line of the enclosing error
node, which is reported before its descendants. -/
theorem C2_counterexample :
    beautify idFlt C2_tree ⟨[], true⟩
      = .error (.err "Parsed file contain errors (at line 2).") ∧
    (postorderErrors C2_tree).head? = some C2_inner ∧
    C2_inner.startPoint.row + 1 = 3 := by
  refine ⟨?_, ?_, rfl⟩
  · rw [beautify]
    rw [find_first_error_node]
    simp [C2_tree, C2_outer, C2_inner, mkNode, TSNode.is_error, TSNode.kind,
      TSNode.children, TSNodeList.toList, TSNodeList.ofList, hasErrorInList,
      TSNode.has_error, findErrorInList, find_first_error_node,
      TSNode.startPoint]
    decide
  · rw [postorderErrors]
    simp [C2_tree, C2_outer, C2_inner, mkNode, TSNode.is_error, TSNode.kind,
      TSNode.children, TSNodeList.toList, TSNodeList.ofList,
      postorderErrors, postorderErrorsList]

theorem string_data_append (a b : String) : (a ++ b).data = a.data ++ b.data := by
  cases a with
  | mk d1 => cases b with
    | mk d2 => rfl

/-- A node renders inline: formatting it from any state just prints one
fixed newline-free string (true of plain tokens and, for instance, of
one-liner node instances). -/
def EmitsInline (flt : JSFilter) (n : TSNode) : Prop :=
  ∃ d : String, ('\n' ∉ d.data) ∧
    ∀ s : State, format_node flt s n = .ok (s.print d)

/-- Plain tokens emit their verbatim text inline. -/
theorem emitsInline_token (flt : JSFilter) (n : TSNode)
    (h1 : (n.kind == "node") = false) (h2 : (n.kind == "comment") = false)
    (h3 : (n.kind == "extern") = false) (h4 : (n.kind == "property") = false)
    (h5 : (n.kind == "proto") = false) (h6 : (n.kind == "vector") = false)
    (h7 : (n.kind == "javascript_block") = false)
    (h8 : (n.kind == "javascript_expression") = false)
    (hnl : '\n' ∉ n.text.data) :
    EmitsInline flt n :=
  ⟨n.text, hnl, fun s => format_node_plain flt s n h1 h2 h3 h4 h5 h6 h7 h8⟩

/-- Elements acceptable inside a one-line vector for the inline-rendering
lemma: either a comma token or an inline-rendering element that does not
hit the bracket/comma/comment branches of the loop. -/
def InlineVectorElem (flt : JSFilter) (e : TSNode) : Prop :=
  e.kind = "," ∨
    (e.kind ≠ "[" ∧ e.kind ≠ "]" ∧ e.kind ≠ "," ∧ e.kind ≠ "comment" ∧
      EmitsInline flt e)

/-- The element loop of format_vector, in one-liner mode with the bracket
already seen, prints a single newline-free string. -/
theorem vectorLoop_inline (flt : JSFilter) (vnode rb : TSNode)
    (hrb : rb.kind = "]") :
    ∀ (elems : List TSNode), (∀ e ∈ elems, InlineVectorElem flt e) →
    ∀ (last : TSNode) (lip : Bool),
      ∃ d : String, ('\n' ∉ d.data) ∧
        ∀ s : State,
          vectorLoop flt s (elems ++ [rb]) true vnode last lip true
            = .ok (s.print d)
  | [], _, last, lip => by
      refine ⟨" ]", by decide, fun s => ?_⟩
      rw [List.nil_append, vectorLoop]
      simp [hrb]
      rw [vectorLoop]
  | e :: rest, helems, last, lip => by
      have he := helems e (List.mem_cons_self e rest)
      have hrest := fun x hx => helems x (List.mem_cons_of_mem e hx)
      rcases he with hcomma | ⟨hne1, hne2, hne3, hne4, d_e, hd_e, hfmt⟩
      · obtain ⟨d, hd, hloop⟩ := vectorLoop_inline flt vnode rb hrb rest hrest e false
        refine ⟨"," ++ d, ?_, fun s => ?_⟩
        · rw [string_data_append]
          simp [hd] <;> decide
        · rw [List.cons_append, vectorLoop]
          simp [hcomma]
          rw [hloop (s.print ",")]
          rw [print_print]
      · obtain ⟨d, hd, hloop⟩ := vectorLoop_inline flt vnode rb hrb rest hrest e false
        refine ⟨" " ++ d_e ++ d, ?_, fun s => ?_⟩
        · rw [string_data_append, string_data_append]
          simp [hd, hd_e] <;> decide
        · rw [List.cons_append, vectorLoop]
          simp [hne1, hne2, hne3, hne4]
          rw [hfmt (s.print " ")]
          simp only [except_bind_ok]
          rw [hloop]
          rw [print_print, print_print, String.append_assoc]

/-- Claim C3 (corrected, negated override): the one-liner decision of the
vector formatter depends only on the source rows.  A vector literal whose
start and end rows coincide is rendered inline even when its elements are
node instances: there is no forced multi-line override.  (The claim as
stated is refuted by C3_counterexample, a single-line vector containing a
node instance that renders on one line.) -/
theorem C3_theorem (flt : JSFilter) (s : State) (node lb rb : TSNode)
    (elems : List TSNode)
    (hrow : node.startPoint.row = node.endPoint.row)
    (hch : node.children.toList = lb :: elems ++ [rb])
    (hlb : lb.kind = "[") (hrb : rb.kind = "]")
    (helems : ∀ e ∈ elems, InlineVectorElem flt e) :
    ∃ d : String, ('\n' ∉ d.data) ∧
      format_vector flt s node = .ok (s.print d) := by
  obtain ⟨d, hd, hloop⟩ := vectorLoop_inline flt node rb hrb elems helems node true
  refine ⟨"[" ++ d, ?_, ?_⟩
  · rw [string_data_append]
    simp [hd] <;> decide
  · rw [format_vector]
    have hone : (node.startPoint.row == node.endPoint.row) = true := by
      simp [hrow]
    rw [hch, hone]
    rw [vectorLoop.eq_def]
    simp [hlb]
    rw [hloop (s.print "[")]
    rw [print_print]

/-- A one-line node instance (Box with empty body) used as a vector
element. -/
def C3_box : TSNode :=
  mkNode "node" true none 0 11 0 17 "Box \x7b \x7d"
    [ mkNode "identifier" true none 0 11 0 14 "Box" [],
      mkNode "\x7b" false none 0 15 0 16 "\x7b" [],
      mkNode "\x7d" false none 0 16 0 17 "\x7d" [] ]

/-- A single-source-row vector literal whose only element is the node
instance C3_box. -/
def C3_vec : TSNode :=
  mkNode "vector" true none 0 9 0 19 "[ Box \x7b \x7d ]"
    [ mkNode "[" false none 0 9 0 10 "[" [],
      C3_box,
      mkNode "]" false none 0 18 0 19 "]" [] ]

/-- The one-line node instance renders inline from any state. -/
theorem C3_box_inline (flt : JSFilter) : EmitsInline flt C3_box := by
  refine ⟨"Box \x7b \x7d", by decide, fun s => ?_⟩
  rw [format_node_node flt s C3_box (by decide)]
  rw [format_node_def]
  cases s with
  | mk f args st c r l e ns =>
    cases args with
    | mk files ip =>
      cases ip <;>
        simp [C3_box, mkNode, TSNode.kind, TSNode.child, TSNode.named_child,
          TSNode.children, TSNode.text, TSNode.named, TSNode.startPoint,
          TSNode.endPoint, TSNodeList.toList, TSNodeList.ofList, errAtLoc,
          nodeBodyLoop, State.print, List.filter, String.append_assoc,
          Nat.add_assoc] <;>
        decide

theorem C3_witness :
    ∃ d : String, ('\n' ∉ d.data) ∧
      format_vector idFlt (initState ⟨[], true⟩) C3_vec
        = .ok ((initState ⟨[], true⟩).print d) :=
  C3_theorem idFlt (initState ⟨[], true⟩) C3_vec
    (mkNode "[" false none 0 9 0 10 "[" [])
    (mkNode "]" false none 0 18 0 19 "]" [])
    [C3_box]
    rfl
    (by simp [C3_vec, mkNode, TSNode.children, TSNodeList.toList,
      TSNodeList.ofList])
    (by decide) (by decide)
    (by
      intro e he
      simp at he
      rw [he]
      right
      refine ⟨by decide, by decide, by decide, by decide, C3_box_inline idFlt⟩)

/-- The claim as stated is false: this single-source-row vector literal
contains a node-instance element, yet it renders on one line (no newline in
the output, row unchanged). -/
theorem C3_counterexample :
    C3_vec.startPoint.row = C3_vec.endPoint.row ∧
    C3_vec.children.toList.map TSNode.kind = ["[", "node", "]"] ∧
    format_vector idFlt (initState ⟨[], true⟩) C3_vec
      = .ok ⟨"[ Box \x7b \x7d ]", ⟨[], true⟩, "", 11, 0, 0, 0, 2⟩ := by
  refine ⟨rfl, by decide, ?_⟩
  rw [format_vector]
  simp [C3_vec, C3_box, mkNode, TSNode.kind, TSNode.child, TSNode.named_child,
    TSNode.children, TSNode.text, TSNode.named, TSNode.startPoint,
    TSNode.endPoint, TSNodeList.toList, TSNodeList.ofList, errAtLoc,
    vectorLoop, format_node_node, format_node_def, nodeBodyLoop, State.print,
    List.filter, initState]
  decide

/-- The inline body emission of a one-liner node instance: every child is
preceded by a single space and formatted in place. -/
def bodyInlineFold (flt : JSFilter) (s : State) : List TSNode → Except Failure State
  | [] => .ok s
  | e :: rest => do
      let s2 ← format_node flt (s.print " ") e
      bodyInlineFold flt s2 rest

/-- The multi-line body emission of a node instance: every child starts on
its own freshly indented line. -/
def bodyLinesFold (flt : JSFilter) (s : State) : List TSNode → Except Failure State
  | [] => .ok s
  | e :: rest => do
      let s2 ← format_node flt ((s.println "").indent) e
      bodyLinesFold flt s2 rest

/-- Body children that take the plain (non-comment, non-brace) loop
branch. -/
def PlainBodyChild (e : TSNode) : Prop :=
  e.kind ≠ "\x7b" ∧ e.kind ≠ "\x7d" ∧ e.kind ≠ "comment"

theorem nodeBodyLoop_inline_eq (flt : JSFilter) (rb : TSNode)
    (hrb : rb.kind = "\x7d") :
    ∀ (body : List TSNode), (∀ e ∈ body, PlainBodyChild e) →
    ∀ (s : State) (lastrow : Nat),
      nodeBodyLoop flt s (body ++ [rb]) true true lastrow
        = bodyInlineFold flt s body
  | [], _, s, lastrow => by
      rw [List.nil_append, nodeBodyLoop]
      simp [hrb]
      rw [nodeBodyLoop, bodyInlineFold]
  | e :: rest, hbody, s, lastrow => by
      obtain ⟨h1, h2, h3⟩ := hbody e (List.mem_cons_self e rest)
      have hrest := fun x hx => hbody x (List.mem_cons_of_mem e hx)
      rw [List.cons_append, nodeBodyLoop, bodyInlineFold]
      simp only [h1, h2, h3, beq_iff_eq, if_false, Bool.and_true,
        Bool.and_false, if_true, Bool.not_true, Bool.not_false]
      simp [h1, h2, h3]
      cases hfmt : format_node flt (s.print " ") e with
      | error err => rfl
      | ok s2 => exact nodeBodyLoop_inline_eq flt rb hrb rest hrest s2 e.endPoint.row

theorem nodeBodyLoop_lines_eq (flt : JSFilter) (rb : TSNode)
    (hrb : rb.kind = "\x7d") :
    ∀ (body : List TSNode), (∀ e ∈ body, PlainBodyChild e) →
    ∀ (s : State) (lastrow : Nat),
      nodeBodyLoop flt s (body ++ [rb]) false true lastrow
        = bodyLinesFold flt s body
  | [], _, s, lastrow => by
      rw [List.nil_append, nodeBodyLoop]
      simp [hrb]
      rw [nodeBodyLoop, bodyLinesFold]
  | e :: rest, hbody, s, lastrow => by
      obtain ⟨h1, h2, h3⟩ := hbody e (List.mem_cons_self e rest)
      have hrest := fun x hx => hbody x (List.mem_cons_of_mem e hx)
      rw [List.cons_append, nodeBodyLoop, bodyLinesFold]
      simp [h1, h2, h3]
      cases hfmt : format_node flt ((s.println "").indent) e with
      | error err => rfl
      | ok s2 => exact nodeBodyLoop_lines_eq flt rb hrb rest hrest s2 e.endPoint.row

theorem print_level (s : State) (a : String) : (s.print a).level = s.level := by
  rw [State.print]
  split <;> rfl

theorem print_set_level (s : State) (x : Nat) (a : String) :
    (({ s with level := x } : State).print a) = { s.print a with level := x } := by
  cases s with
  | mk f args st c r l e ns =>
    cases args with
    | mk files ip => cases ip <;> rfl

theorem set_level_self (s : State) : ({ s with level := s.level } : State) = s := by
  cases s
  rfl

theorem set_level_of_print (s : State) (a : String) :
    ({ s.print a with level := s.level } : State) = s.print a := by
  have h : s.level = (s.print a).level := (print_level s a).symm
  rw [h, set_level_self]

/-- A body consisting of inline-rendering children folds to one
newline-free print. -/
theorem bodyInlineFold_inline (flt : JSFilter) :
    ∀ (body : List TSNode), (∀ e ∈ body, EmitsInline flt e) →
    ∃ d : String, ('\n' ∉ d.data) ∧
      ∀ s : State, bodyInlineFold flt s body = .ok (s.print d)
  | [], _ => ⟨"", by decide, fun s => by rw [bodyInlineFold, print_empty]⟩
  | e :: rest, hbody => by
      obtain ⟨d_e, hd_e, hfmt⟩ := hbody e (List.mem_cons_self e rest)
      obtain ⟨d, hd, hfold⟩ := bodyInlineFold_inline flt rest
        (fun x hx => hbody x (List.mem_cons_of_mem e hx))
      refine ⟨" " ++ (d_e ++ d), ?_, fun s => ?_⟩
      · rw [string_data_append, string_data_append]
        simp [hd, hd_e] <;> decide
      · rw [bodyInlineFold]
        rw [hfmt (s.print " ")]
        simp only [except_bind_ok]
        rw [hfold]
        rw [print_print, print_print]

/-- Claim C8 (confirmed): the one-liner decision of the node-instance
formatter depends only on the original source rows.  If the instance's
start and end rows coincide, the body children are emitted inline, each
preceded by a single space, with a single space before the closing brace
(and the whole rendering is one newline-free print when the children render
inline); if the rows differ, every body child is emitted on its own freshly
indented line and the closing brace gets its own indented line. -/
theorem C8_theorem (flt : JSFilter) (s : State) (node c0 lb rb : TSNode)
    (body : List TSNode)
    (hch : node.children.toList = c0 :: lb :: body ++ [rb])
    (hc0u : c0.kind ≠ "USE") (hc0d : c0.kind ≠ "DEF")
    (hc0b : c0.kind ≠ "\x7b") (hc0n : c0.named = true)
    (hlb : lb.kind = "\x7b") (hrb : rb.kind = "\x7d")
    (hbody : ∀ e ∈ body, PlainBodyChild e) :
    (node.startPoint.row = node.endPoint.row →
      (format_node_def flt s node = (do
          let s1 := (s.print c0.text).print " \x7b"
          let s2 ← bodyInlineFold flt { s1 with level := s1.level + 1 } body
          pure ((({ s2 with level := s2.level - 1 } : State).print " ").print "\x7d")) ∧
        ((∀ e ∈ body, EmitsInline flt e) → '\n' ∉ c0.text.data →
          ∃ d : String, ('\n' ∉ d.data) ∧
            format_node_def flt s node = .ok (s.print d)))) ∧
    (node.startPoint.row ≠ node.endPoint.row →
      format_node_def flt s node = (do
          let s1 := (s.print c0.text).print " \x7b"
          let s2 ← bodyLinesFold flt { s1 with level := s1.level + 1 } body
          pure (((({ s2 with level := s2.level - 1 } : State).println "").indent).print "\x7d"))) := by
  have hchild0 : node.child 0 = some c0 := by
    rw [TSNode.child, hch]
    rfl
  have hnamed0 : node.named_child 0 = some c0 := by
    rw [TSNode.named_child, hch]
    simp [List.filter, hc0n]
  have hloopstart :
      ∀ (one : Bool) (st : State),
        nodeBodyLoop flt st (c0 :: lb :: body ++ [rb]) one false 0
          = nodeBodyLoop flt st (body ++ [rb]) one true lb.endPoint.row := by
    intro one st
    rw [nodeBodyLoop.eq_def]
    simp only [hc0b]
    simp [hc0b]
    rw [nodeBodyLoop.eq_def]
    simp [hlb]
  constructor
  · intro hrow
    have hone : (node.startPoint.row == node.endPoint.row) = true := by
      simp [hrow]
    have heq : format_node_def flt s node = (do
        let s1 := (s.print c0.text).print " \x7b"
        let s2 ← bodyInlineFold flt { s1 with level := s1.level + 1 } body
        pure ((({ s2 with level := s2.level - 1 } : State).print " ").print "\x7d")) := by
      rw [format_node_def]
      rw [hchild0]
      simp only [errAtLoc, except_bind_ok, hone]
      simp [hc0u, hc0d]
      rw [hnamed0]
      simp only [errAtLoc, except_bind_ok, except_pure_eq_ok]
      rw [hch, hloopstart]
      rw [nodeBodyLoop_inline_eq flt rb hrb body hbody]
    refine ⟨heq, fun hinl hc0nl => ?_⟩
    obtain ⟨db, hdb, hfold⟩ := bodyInlineFold_inline flt body hinl
    refine ⟨c0.text ++ (" \x7b" ++ (db ++ " \x7d")), ?_, ?_⟩
    · rw [string_data_append, string_data_append, string_data_append]
      simp [hdb, hc0nl] <;> decide
    · rw [heq]
      dsimp only
      rw [hfold]
      simp only [except_bind_ok]
      cases s with
      | mk f args st c r l e ns =>
        cases args with
        | mk files ip =>
          cases ip <;>
            (simp [State.print, except_pure_eq_ok, String.append_assoc,
               utf8ByteSize_append,
               show (" \x7d" : String).utf8ByteSize = 2 from rfl,
               show (" " : String).utf8ByteSize = 1 from rfl,
               show ("\x7d" : String).utf8ByteSize = 1 from rfl,
               show (" \x7b" : String).utf8ByteSize = 2 from rfl] <;>
             omega)
  · intro hrow
    have hone : (node.startPoint.row == node.endPoint.row) = false := by
      simp [hrow]
    rw [format_node_def]
    rw [hchild0]
    simp only [errAtLoc, except_bind_ok, hone]
    simp [hc0u, hc0d]
    rw [hnamed0]
    simp only [errAtLoc, except_bind_ok, except_pure_eq_ok]
    rw [hch, hloopstart]
    rw [nodeBodyLoop_lines_eq flt rb hrb body hbody]

def C8_c0 : TSNode := mkNode "identifier" true none 0 0 0 5 "Shape" []
def C8_lb : TSNode := mkNode "\x7b" false none 0 6 0 7 "\x7b" []
def C8_b1 : TSNode := mkNode "identifier" true none 0 8 0 12 "size" []
def C8_b2 : TSNode := mkNode "number" true none 0 13 0 14 "1" []
def C8_rb : TSNode := mkNode "\x7d" false none 0 15 0 16 "\x7d" []

/-- A node instance whose source start and end rows coincide. -/
def C8_one : TSNode :=
  mkNode "node" true none 0 0 0 16 "Shape \x7b size 1 \x7d"
    [C8_c0, C8_lb, C8_b1, C8_b2, C8_rb]

/-- The same node instance spread over three source rows. -/
def C8_multi : TSNode :=
  mkNode "node" true none 0 0 2 1 "Shape \x7b\n  size 1\n\x7d"
    [C8_c0, C8_lb, C8_b1, C8_b2, C8_rb]

theorem C8_witness :
    (∃ d : String, ('\n' ∉ d.data) ∧
      format_node_def idFlt (initState ⟨[], true⟩) C8_one
        = .ok ((initState ⟨[], true⟩).print d)) ∧
    format_node_def idFlt (initState ⟨[], true⟩) C8_multi = (do
      let s1 := (((initState ⟨[], true⟩).print C8_c0.text).print " \x7b")
      let s2 ← bodyLinesFold idFlt { s1 with level := s1.level + 1 } [C8_b1, C8_b2]
      pure (((({ s2 with level := s2.level - 1 } : State).println "").indent).print "\x7d")) := by
  have hbody : ∀ e ∈ [C8_b1, C8_b2], PlainBodyChild e := by
    intro e he
    simp at he
    rcases he with h | h <;> subst h <;>
      exact ⟨by decide, by decide, by decide⟩
  have hinl : ∀ e ∈ [C8_b1, C8_b2], EmitsInline idFlt e := by
    intro e he
    simp at he
    rcases he with h | h <;> subst h <;>
      exact emitsInline_token idFlt _ (by decide) (by decide) (by decide)
        (by decide) (by decide) (by decide) (by decide) (by decide) (by decide)
  constructor
  · exact ((C8_theorem idFlt (initState ⟨[], true⟩) C8_one C8_c0 C8_lb C8_rb
      [C8_b1, C8_b2] rfl (by decide) (by decide) (by decide) (by decide)
      (by decide) (by decide) hbody).1 rfl).2 hinl (by decide)
  · exact (C8_theorem idFlt (initState ⟨[], true⟩) C8_multi C8_c0 C8_lb C8_rb
      [C8_b1, C8_b2] rfl (by decide) (by decide) (by decide) (by decide)
      (by decide) (by decide) hbody).2 (by decide)

theorem print_inplace (s : State) (h : s.arguments.inplace = true) (a : String) :
    s.print a
      = { s with formatted := s.formatted ++ a,
                 col := s.col + a.utf8ByteSize } := by
  rw [State.print, if_pos h]

theorem println_inplace (s : State) (h : s.arguments.inplace = true) (a : String) :
    s.println a
      = { s with formatted := s.formatted ++ a ++ "\n",
                 col := 0, row := s.row + 1 } := by
  rw [State.println, if_pos h]

theorem spaces_utf8ByteSize (n : Nat) : (spaces n).utf8ByteSize = n := by
  rw [spaces, String.utf8ByteSize_mk]
  induction n with
  | zero => rfl
  | succ m ih =>
      rw [List.replicate_succ, String.utf8Len_cons]
      rw [ih]
      rfl

/-- A token part: a node that the dispatcher prints verbatim. -/
def PlainToken (e : TSNode) : Prop :=
  e.kind ≠ "node" ∧ e.kind ≠ "comment" ∧ e.kind ≠ "extern" ∧
  e.kind ≠ "property" ∧ e.kind ≠ "proto" ∧ e.kind ≠ "vector" ∧
  e.kind ≠ "javascript_block" ∧ e.kind ≠ "javascript_expression"

theorem format_node_plainToken (flt : JSFilter) (s : State) (e : TSNode)
    (h : PlainToken e) : format_node flt s e = .ok (s.print e.text) := by
  obtain ⟨h1, h2, h3, h4, h5, h6, h7, h8⟩ := h
  exact format_node_plain flt s e (by simp [h1]) (by simp [h2]) (by simp [h3])
    (by simp [h4]) (by simp [h5]) (by simp [h6]) (by simp [h7]) (by simp [h8])

/-- A field whose four children are token parts. -/
def TokenField (f : TSNode) : Prop :=
  ∃ k t nm v : TSNode, f.children.toList = [k, t, nm, v] ∧
    PlainToken k ∧ PlainToken t ∧ PlainToken nm ∧ PlainToken v

/-- The i-th part text of a field. -/
def fieldPart (f : TSNode) (i : Nat) : String :=
  ((f.children.toList[i]?).map TSNode.text).getD ""

/-- The i-th part measured length of a field. -/
def partLen (i : Nat) (f : TSNode) : Nat :=
  (fieldPart f i).utf8ByteSize

/-- Specification-side definition following the words of the claim: the
column width is the maximum over all fields of the part's measured text
length plus the fixed padding. -/
def colWidth (pad : Nat) (i : Nat) (fields : List TSNode) : Nat :=
  fields.foldl (fun acc f => max acc (partLen i f + pad)) 0

/-- Measuring one token field: the four parts are formatted in capture
mode, the buffer ends empty and the four returned lengths are the byte
lengths of the four part texts. -/
theorem unwrapResult_ok (st : State) : unwrapResult (.ok st) = .ok st := rfl

/-- One measurement step on a token part, for states in constructor form
(the shape the do-chain produces after the first step). -/
theorem unwrap_plain_mk (flt : JSFilter) (f : String) (args : Arguments)
    (sout : String) (c r l ex ns : Nat) (tok : TSNode) (htok : PlainToken tok)
    (hin : args.inplace = true) :
    unwrapResult (format_node flt (State.mk f args sout c r l ex ns) tok)
      = .ok (State.mk (f ++ tok.text) args sout (c + tok.text.utf8ByteSize)
          r l ex ns) := by
  rw [format_node_plainToken flt _ tok htok]
  rw [print_inplace _ hin]
  rfl

theorem measureField_token (flt : JSFilter) (s : State)
    (hin : s.arguments.inplace = true) (hf : s.formatted = "")
    (k t nm v : TSNode) (hk : PlainToken k) (ht : PlainToken t)
    (hnm : PlainToken nm) (hv : PlainToken v) :
    measureField flt s [k, t, nm, v]
      = .ok ({ s with
                formatted := "",
                col := s.col + (k.text.utf8ByteSize + t.text.utf8ByteSize
                  + nm.text.utf8ByteSize + v.text.utf8ByteSize) },
             k.text.utf8ByteSize, t.text.utf8ByteSize, nm.text.utf8ByteSize,
             v.text.utf8ByteSize) := by
  rw [measureField]
  rw [format_node_plainToken flt s k hk, print_inplace s hin k.text]
  simp only [unwrapResult_ok, except_bind_ok]
  rw [unwrap_plain_mk flt "" s.arguments s.stdout
    (s.col + k.text.utf8ByteSize) s.row s.level s.extra_indentation
    s.num_spaces t ht hin]
  simp only [except_bind_ok]
  rw [unwrap_plain_mk flt "" s.arguments s.stdout
    (s.col + k.text.utf8ByteSize + t.text.utf8ByteSize) s.row s.level
    s.extra_indentation s.num_spaces nm hnm hin]
  simp only [except_bind_ok]
  rw [unwrap_plain_mk flt "" s.arguments s.stdout
    (s.col + k.text.utf8ByteSize + t.text.utf8ByteSize
      + nm.text.utf8ByteSize) s.row s.level s.extra_indentation
    s.num_spaces v hv hin]
  simp only [except_bind_ok]
  simp [hf, utf8ByteSize_append] <;> omega

theorem set_col_self (s : State) : ({ s with col := s.col } : State) = s := by
  cases s
  rfl

theorem args_inplace_eta (a : Arguments) :
    ({ a with inplace := a.inplace } : Arguments) = a := by
  cases a
  rfl

/-- The measurement loop over token fields computes exactly the running
maxima of part length + padding, starting from the given accumulators, and
leaves the capture buffer empty. -/
theorem fieldSizesLoop_token (flt : JSFilter) :
    ∀ (fields : List TSNode), (∀ f ∈ fields, TokenField f) →
    ∀ (s0 : State), s0.arguments.inplace = true →
    ∀ (X a b c d : Nat),
      ∃ c2 : Nat,
        fieldSizesLoop flt { s0 with formatted := "", col := X } fields a b c d
          = .ok ({ s0 with formatted := "", col := c2 },
              ⟨fields.foldl (fun acc f => max acc (partLen 0 f + s0.num_spaces)) a,
               fields.foldl (fun acc f => max acc (partLen 1 f + s0.num_spaces)) b,
               fields.foldl (fun acc f => max acc (partLen 2 f + s0.num_spaces)) c,
               fields.foldl (fun acc f => max acc (partLen 3 f + s0.num_spaces)) d⟩)
  | [], _, s0, hin, X, a, b, c, d => by
      refine ⟨X, ?_⟩
      rw [fieldSizesLoop]
      simp
  | f :: rest, hfields, s0, hin, X, a, b, c, d => by
      obtain ⟨k, t, nm, v, hch, hk, ht, hnm, hv⟩ :=
        hfields f (List.mem_cons_self f rest)
      have hrest := fun x hx => hfields x (List.mem_cons_of_mem f hx)
      rw [fieldSizesLoop]
      rw [hch]
      rw [measureField_token flt ({ s0 with formatted := "", col := X } : State)
        hin rfl k t nm v hk ht hnm hv]
      simp only [except_bind_ok]
      have hp0 : partLen 0 f = k.text.utf8ByteSize := by
        simp [partLen, fieldPart, hch]
      have hp1 : partLen 1 f = t.text.utf8ByteSize := by
        simp [partLen, fieldPart, hch]
      have hp2 : partLen 2 f = nm.text.utf8ByteSize := by
        simp [partLen, fieldPart, hch]
      have hp3 : partLen 3 f = v.text.utf8ByteSize := by
        simp [partLen, fieldPart, hch]
      obtain ⟨c2, hrec⟩ := fieldSizesLoop_token flt rest hrest s0 hin
        (X + (k.text.utf8ByteSize + t.text.utf8ByteSize
          + nm.text.utf8ByteSize + v.text.utf8ByteSize))
        (max a (k.text.utf8ByteSize + s0.num_spaces))
        (max b (t.text.utf8ByteSize + s0.num_spaces))
        (max c (nm.text.utf8ByteSize + s0.num_spaces))
        (max d (v.text.utf8ByteSize + s0.num_spaces))
      refine ⟨c2, ?_⟩
      rw [List.foldl_cons, List.foldl_cons, List.foldl_cons, List.foldl_cons]
      rw [hp0, hp1, hp2, hp3]
      exact hrec

/-- fn field_sizes on token fields returns per column the maximum over all
fields of the measured part length plus the fixed padding (num_spaces), and
restores buffer and flag (only the column leaks). -/
theorem field_sizes_token (flt : JSFilter) (s : State) (fields : List TSNode)
    (hfields : ∀ f ∈ fields, TokenField f)
    (hin : s.arguments.inplace = true) :
    ∃ c2 : Nat,
      field_sizes flt s fields
        = .ok ({ s with col := c2 },
            ⟨colWidth s.num_spaces 0 fields, colWidth s.num_spaces 1 fields,
             colWidth s.num_spaces 2 fields, colWidth s.num_spaces 3 fields⟩) := by
  obtain ⟨c2, hloop⟩ := fieldSizesLoop_token flt fields hfields
    { s with arguments := { s.arguments with inplace := true } } rfl
    s.col 0 0 0 0
  refine ⟨c2, ?_⟩
  rw [field_sizes]
  have hstart :
      ({ s with
          formatted := "",
          arguments := { s.arguments with inplace := true } } : State)
        = { ({ s with
                arguments := { s.arguments with inplace := true } } : State) with
            formatted := "", col := s.col } := by
    cases s
    rfl
  rw [hstart, hloop]
  simp only [except_bind_ok]
  have hrestore :
      ({ ({ ({ s with
                arguments := { s.arguments with inplace := true } } : State) with
            formatted := "", col := c2 } : State) with
          formatted := s.formatted,
          arguments := { ({ s.arguments with inplace := true } : Arguments) with
                          inplace := s.arguments.inplace } } : State)
        = { s with col := c2 } := by
    cases s with
    | mk f args st c r l e ns =>
        cases args
        rfl
  rw [hrestore]
  rfl

theorem print_inplace_mk (f : String) (args : Arguments) (sout : String)
    (c r l ex ns : Nat) (hin : args.inplace = true) (a : String) :
    (State.mk f args sout c r l ex ns).print a
      = State.mk (f ++ a) args sout (c + a.utf8ByteSize) r l ex ns := by
  rw [print_inplace (State.mk f args sout c r l ex ns) hin a]

/-- Bool-level test for the kinds with a dedicated formatter. -/
def isSpecialKind (k : String) : Bool :=
  k == "node" || k == "comment" || k == "extern" || k == "property" ||
  k == "proto" || k == "vector" || k == "javascript_block" ||
  k == "javascript_expression"

theorem plainToken_special {e : TSNode} (h : PlainToken e) :
    isSpecialKind e.kind = false := by
  obtain ⟨h1, h2, h3, h4, h5, h6, h7, h8⟩ := h
  simp [isSpecialKind, h1, h2, h3, h4, h5, h6, h7, h8]

theorem format_node_plain2 (flt : JSFilter) (s : State) (n : TSNode)
    (h : isSpecialKind n.kind = false) :
    format_node flt s n = .ok (s.print n.text) := by
  simp only [isSpecialKind, Bool.or_eq_false_iff] at h
  obtain ⟨⟨⟨⟨⟨⟨⟨h1, h2⟩, h3⟩, h4⟩, h5⟩, h6⟩, h7⟩, h8⟩ := h
  exact format_node_plain flt s n h1 h2 h3 h4 h5 h6 h7 h8

set_option maxHeartbeats 3000000 in
/-- One field line tail: the four token parts with their saturating pads.
The pads land the cursor exactly on the target columns, so the second part
always starts at column atk (= indent + kind width at the call site). -/
theorem protoFieldParts_token (flt : JSFilter) (s : State)
    (hin : s.arguments.inplace = true)
    (k t nm v : TSNode) (hk : PlainToken k) (ht : PlainToken t)
    (hnm : PlainToken nm) (hv : PlainToken v)
    (atk s1 s2 : Nat)
    (hka : s.col + k.text.utf8ByteSize ≤ atk)
    (hts : t.text.utf8ByteSize ≤ s1)
    (hns : nm.text.utf8ByteSize ≤ s2) :
    protoFieldParts flt s [k, t, nm, v] atk s1 s2
      = .ok (s.print (k.text
          ++ (spaces (atk - (s.col + k.text.utf8ByteSize))
          ++ (t.text ++ (spaces (s1 - t.text.utf8ByteSize)
          ++ (nm.text ++ (spaces (s2 - nm.text.utf8ByteSize)
          ++ v.text))))))) := by
  have hk2 := plainToken_special hk
  have ht2 := plainToken_special ht
  have hnm2 := plainToken_special hnm
  have hv2 := plainToken_special hv
  cases s with
  | mk f args sout c r l ex ns =>
    cases args with
    | mk files ip =>
      have hip : ip = true := hin
      subst hip
      have hka2 : c + k.text.utf8ByteSize ≤ atk := hka
      have e1 : (c + k.text.utf8ByteSize)
          + (atk - (c + k.text.utf8ByteSize)) = atk := by omega
      have e2 : (atk + t.text.utf8ByteSize) + (s1 - t.text.utf8ByteSize)
          = atk + s1 := by omega
      have e3 : ((atk + s1) + nm.text.utf8ByteSize)
          + (s2 - nm.text.utf8ByteSize) = (atk + s1) + s2 := by omega
      rw [protoFieldParts]
      simp only [format_node_plain2, hk2, ht2, hnm2, hv2, except_bind_ok,
        State.print, Bool.if_true_left, if_true, spaces_utf8ByteSize,
        utf8ByteSize_append, Nat.add_sub_add_left, e1, e2, e3,
        String.append_assoc]
      simp only [Except.ok.injEq, State.mk.injEq, and_true, true_and,
        and_self, eq_self_iff_true]
      omega

def concatStrings : List String → String
  | [] => ""
  | x :: xs => x ++ concatStrings xs

/-- The body of one aligned field line (indentation, then the four parts
padded to the three column widths), without the leading newline. -/
def fieldLineBody (num : Nat) (sz : FieldSizes) (f : TSNode) : String :=
  spaces num ++ (fieldPart f 0
    ++ (spaces (sz.kind_size - partLen 0 f) ++ (fieldPart f 1
    ++ (spaces (sz.type_size - partLen 1 f) ++ (fieldPart f 2
    ++ (spaces (sz.name_size - partLen 2 f) ++ fieldPart f 3))))))

/-- The full text emitted for one field in the proto header. -/
def fieldLine (num : Nat) (sz : FieldSizes) (f : TSNode) : String :=
  "\n" ++ fieldLineBody num sz f

/-- The cursor column after the header loop: the byte length of the last
emitted field line (or the starting column if there was none). -/
def lastLineCol (c num : Nat) (sz : FieldSizes) : List TSNode → Nat
  | [] => c
  | f :: rest => lastLineCol ((fieldLineBody num sz f).utf8ByteSize) num sz rest

/-- The header loop over the token fields emits exactly the aligned field
lines, one per field, and stops at the closing bracket. -/
theorem protoHeaderLoop_fields (flt : JSFilter) (sz : FieldSizes)
    (rbk lcb rcb : TSNode) (hrbk : rbk.kind = "]")
    (hlcb : lcb.kind ≠ "[") (hrcb : rcb.kind ≠ "[")
    (hlcb2 : lcb.kind ≠ "]") (hrcb2 : rcb.kind ≠ "]")
    (hlcb3 : lcb.kind ≠ "field") (hrcb3 : rcb.kind ≠ "field")
    (hlcb4 : lcb.kind ≠ "comment") (hrcb4 : rcb.kind ≠ "comment") :
    ∀ (fields : List TSNode),
      (∀ f ∈ fields, f.kind = "field" ∧ TokenField f ∧
          partLen 0 f ≤ sz.kind_size ∧ partLen 1 f ≤ sz.type_size ∧
          partLen 2 f ≤ sz.name_size) →
    ∀ (fo : String) (args : Arguments) (so : String) (c r ns ll : Nat),
      args.inplace = true →
      protoHeaderLoop flt (State.mk fo args so c r 1 0 ns)
          (fields ++ [rbk, lcb, rcb]) sz true ll
        = .ok (State.mk
            (fo ++ concatStrings (fields.map (fieldLine ns sz)))
            args so (lastLineCol c ns sz fields) (r + fields.length) 1 0 ns)
  | [], _, fo, args, so, c, r, ns, ll, hin => by
      rw [List.nil_append, protoHeaderLoop]
      simp [hrbk]
      rw [protoHeaderLoop]
      simp [hlcb, hlcb2, hlcb3, hlcb4]
      rw [protoHeaderLoop]
      simp [hrcb, hrcb2, hrcb3, hrcb4]
      rw [protoHeaderLoop]
      simp [concatStrings, lastLineCol, String.append_empty]
  | f :: rest, hfields, fo, args, so, c, r, ns, ll, hin => by
      obtain ⟨hfk, hTF, hb0, hb1, hb2⟩ := hfields f (List.mem_cons_self f rest)
      obtain ⟨k, t, nm, v, hch, hk, ht, hnm, hv⟩ := hTF
      have hrest := fun x hx => hfields x (List.mem_cons_of_mem f hx)
      have hp0 : partLen 0 f = k.text.utf8ByteSize := by
        simp [partLen, fieldPart, hch]
      have hp1 : partLen 1 f = t.text.utf8ByteSize := by
        simp [partLen, fieldPart, hch]
      have hp2 : partLen 2 f = nm.text.utf8ByteSize := by
        simp [partLen, fieldPart, hch]
      have hq0 : fieldPart f 0 = k.text := by simp [fieldPart, hch]
      have hq1 : fieldPart f 1 = t.text := by simp [fieldPart, hch]
      have hq2 : fieldPart f 2 = nm.text := by simp [fieldPart, hch]
      have hq3 : fieldPart f 3 = v.text := by simp [fieldPart, hch]
      have hs2 : (((State.mk fo args so c r 1 0 ns).println "").indent)
          = State.mk (fo ++ "\n" ++ spaces ns) args so ns (r + 1) 1 0 ns := by
        rw [println_inplace _ hin, indent_eq_print_spaces]
        simp [State.print, hin, spaces_utf8ByteSize]
      have hka2 : ns + k.text.utf8ByteSize ≤ 1 * ns + sz.kind_size := by
        rw [hp0] at hb0; omega
      have hts2 : t.text.utf8ByteSize ≤ sz.type_size := by
        rw [hp1] at hb1; exact hb1
      have hns2 : nm.text.utf8ByteSize ≤ sz.name_size := by
        rw [hp2] at hb2; exact hb2
      have hparts := protoFieldParts_token flt
          (State.mk (fo ++ "\n" ++ spaces ns) args so ns (r + 1) 1 0 ns) hin
          k t nm v hk ht hnm hv (1 * ns + sz.kind_size) sz.type_size
          sz.name_size hka2 hts2 hns2
      rw [print_inplace_mk _ _ _ _ _ _ _ _ hin] at hparts
      have e1 : (1 * ns + sz.kind_size) - (ns + k.text.utf8ByteSize)
          = sz.kind_size - k.text.utf8ByteSize := by omega
      simp only [e1] at hparts
      have hcol : ns + (k.text
          ++ (spaces (sz.kind_size - k.text.utf8ByteSize)
          ++ (t.text ++ (spaces (sz.type_size - t.text.utf8ByteSize)
          ++ (nm.text ++ (spaces (sz.name_size - nm.text.utf8ByteSize)
          ++ v.text)))))).utf8ByteSize
          = (fieldLineBody ns sz f).utf8ByteSize := by
        simp only [fieldLineBody, hq0, hq1, hq2, hq3, hp0, hp1, hp2,
          utf8ByteSize_append, spaces_utf8ByteSize]
      rw [List.cons_append, protoHeaderLoop]
      simp only [hfk]
      rw [if_neg (by decide), if_neg (by decide), if_pos (by decide)]
      simp only [hs2, hch]
      simp only [hparts, except_bind_ok]
      rw [protoHeaderLoop_fields flt sz rbk lcb rcb hrbk hlcb hrcb hlcb2 hrcb2
        hlcb3 hrcb3 hlcb4 hrcb4 rest hrest _ args _ _ _ _ _ hin]
      simp only [List.map_cons, concatStrings, lastLineCol, List.length_cons,
        Except.ok.injEq, State.mk.injEq, and_true, true_and]
      refine ⟨?_, ?_, ?_⟩
      · simp only [fieldLine, fieldLineBody, hq0, hq1, hq2, hq3, hp0, hp1,
          hp2, String.append_assoc]
      · rw [hcol]
      · omega

/-- Before the opening bracket the header loop skips the keyword and the
name tokens and flips ok at the bracket. -/
theorem protoHeaderLoop_pre (flt : JSFilter) (s : State) (sz : FieldSizes)
    (kw nameN lb : TSNode) (hkw1 : kw.kind ≠ "[") (hn1 : nameN.kind ≠ "[")
    (hlb : lb.kind = "[") (rest : List TSNode) (ll : Nat) :
    protoHeaderLoop flt s (kw :: nameN :: lb :: rest) sz false ll
      = protoHeaderLoop flt s rest sz true ll := by
  rw [protoHeaderLoop]
  simp [hkw1]
  rw [protoHeaderLoop]
  simp [hn1]
  rw [protoHeaderLoop]
  simp [hlb]

/-- Before the opening brace the body loop of fn format_proto skips every
child. -/
theorem protoBodyLoop_pre (flt : JSFilter) :
    ∀ (l1 : List TSNode), (∀ e ∈ l1, e.kind ≠ "\x7b") →
    ∀ (s : State) (rest : List TSNode),
      protoBodyLoop flt s (l1 ++ rest) false = protoBodyLoop flt s rest false
  | [], _, s, rest => by rw [List.nil_append]
  | e :: l1, he, s, rest => by
      have h1 := he e (List.mem_cons_self e l1)
      have hrest := fun x hx => he x (List.mem_cons_of_mem e hx)
      rw [List.cons_append, protoBodyLoop]
      simp [h1]
      exact protoBodyLoop_pre flt l1 hrest s rest

theorem le_foldl_max (pad i : Nat) :
    ∀ (fields : List TSNode) (acc : Nat),
      acc ≤ fields.foldl (fun a f => max a (partLen i f + pad)) acc
  | [], acc => le_refl acc
  | f :: rest, acc => by
      rw [List.foldl_cons]
      exact le_trans (Nat.le_max_left acc _) (le_foldl_max pad i rest _)

theorem foldl_max_ge (pad i : Nat) :
    ∀ (fields : List TSNode) (acc : Nat) (f : TSNode), f ∈ fields →
      partLen i f + pad
        ≤ fields.foldl (fun a g => max a (partLen i g + pad)) acc
  | g :: rest, acc, f, hf => by
      rw [List.foldl_cons]
      rcases List.mem_cons.mp hf with heq | hmem
      · subst heq
        exact le_trans (Nat.le_max_right acc _) (le_foldl_max pad i rest _)
      · exact foldl_max_ge pad i rest _ f hmem

/-- Every field's part fits in its column: the column width dominates the
part length plus the fixed padding. -/
theorem colWidth_ge (pad i : Nat) (fields : List TSNode) (f : TSNode)
    (hf : f ∈ fields) : partLen i f + pad ≤ colWidth pad i fields :=
  foldl_max_ge pad i fields 0 f hf

theorem println_inplace_mk (f : String) (args : Arguments) (sout : String)
    (c r l ex ns : Nat) (hin : args.inplace = true) (a : String) :
    (State.mk f args sout c r l ex ns).println a
      = State.mk (f ++ a ++ "\n") args sout 0 (r + 1) l ex ns := by
  rw [println_inplace _ hin]

theorem level_update_mk (f : String) (args : Arguments) (sout : String)
    (c r l ex ns L : Nat) :
    ({ State.mk f args sout c r l ex ns with level := L } : State)
      = State.mk f args sout c r L ex ns := rfl

set_option maxHeartbeats 2000000 in
/-- Claim C7 (confirmed): within one parameter list each column width is
the maximum over all fields of the part's measured length plus the fixed
padding (num_spaces), computed independently per column; every emitted pad
is target minus current in truncating-free Nat arithmetic, so each field
line pads part i to exactly the column width and the start column of the
type token is indent + kind_column_width on every line. -/
theorem C7_theorem (flt : JSFilter) (fo : String) (args : Arguments)
    (so : String) (c r lv ns : Nat) (node kw nameN lb rb lcb rcb : TSNode)
    (fields : List TSNode)
    (hin : args.inplace = true)
    (hch : node.children.toList
      = kw :: nameN :: lb :: (fields ++ [rb, lcb, rcb]))
    (hname : node.child_by_field_name "proto" = some nameN)
    (hkw1 : kw.kind ≠ "[") (hkw2 : kw.kind ≠ "\x7b") (hkwn : kw.named = false)
    (hn1 : nameN.kind ≠ "[") (hn2 : nameN.kind ≠ "\x7b")
    (hn3 : nameN.kind ≠ "field") (hnn : nameN.named = true)
    (hlb : lb.kind = "[") (hlbn : lb.named = false)
    (hrb : rb.kind = "]") (hrbn : rb.named = false)
    (hlcb : lcb.kind = "\x7b") (hlcbn : lcb.named = false)
    (hrcb : rcb.kind = "\x7d") (hrcbn : rcb.named = false)
    (hfields : ∀ f ∈ fields, f.kind = "field" ∧ f.named = true ∧ TokenField f) :
    format_proto flt (State.mk fo args so c r lv 0 ns) node
      = .ok (State.mk
          (fo ++ ("PROTO " ++ (nameN.text ++ (" ["
            ++ (concatStrings (fields.map (fieldLine ns
                  ⟨colWidth ns 0 fields, colWidth ns 1 fields,
                   colWidth ns 2 fields, colWidth ns 3 fields⟩))
            ++ "\n]\n\x7b\n\x7d")))))
          args so 1 (r + (fields.length + 3)) 0 0 ns)
      ∧ ∀ f ∈ fields,
          partLen 0 f + (colWidth ns 0 fields - partLen 0 f)
              = colWidth ns 0 fields
          ∧ partLen 1 f + (colWidth ns 1 fields - partLen 1 f)
              = colWidth ns 1 fields
          ∧ partLen 2 f + (colWidth ns 2 fields - partLen 2 f)
              = colWidth ns 2 fields := by
  constructor
  · have hfA : fields.filter (fun n => n.named) = fields :=
      List.filter_eq_self.mpr (fun a ha => (hfields a ha).2.1)
    have hfB : fields.filter (fun n => n.kind == "field") = fields :=
      List.filter_eq_self.mpr (fun a ha => by simp [(hfields a ha).1])
    have hfilter : (((kw :: nameN :: lb :: (fields ++ [rb, lcb, rcb])).filter
        (fun n => n.named)).filter (fun n => n.kind == "field")) = fields := by
      simp [List.filter_append, hkwn, hnn, hlbn, hrbn, hlcbn, hrcbn, hfA,
        hfB, hn3]
    obtain ⟨c2, hfs⟩ := field_sizes_token flt (State.mk fo args so c r lv 0 ns)
      fields (fun f hf => (hfields f hf).2.2) hin
    have hfs2 : field_sizes flt (State.mk fo args so c r lv 0 ns) fields
        = .ok (State.mk fo args so c2 r lv 0 ns,
            ⟨colWidth ns 0 fields, colWidth ns 1 fields,
             colWidth ns 2 fields, colWidth ns 3 fields⟩) := hfs
    have hlcb1 : lcb.kind ≠ "[" := by rw [hlcb]; decide
    have hrcb1 : rcb.kind ≠ "[" := by rw [hrcb]; decide
    have hlcb2 : lcb.kind ≠ "]" := by rw [hlcb]; decide
    have hrcb2 : rcb.kind ≠ "]" := by rw [hrcb]; decide
    have hlcb3 : lcb.kind ≠ "field" := by rw [hlcb]; decide
    have hrcb3 : rcb.kind ≠ "field" := by rw [hrcb]; decide
    have hlcb4 : lcb.kind ≠ "comment" := by rw [hlcb]; decide
    have hrcb4 : rcb.kind ≠ "comment" := by rw [hrcb]; decide
    have hflds2 : ∀ f ∈ fields, f.kind = "field" ∧ TokenField f ∧
        partLen 0 f ≤ colWidth ns 0 fields ∧
        partLen 1 f ≤ colWidth ns 1 fields ∧
        partLen 2 f ≤ colWidth ns 2 fields := by
      intro f hf
      have h0 := colWidth_ge ns 0 fields f hf
      have h1 := colWidth_ge ns 1 fields f hf
      have h2 := colWidth_ge ns 2 fields f hf
      exact ⟨(hfields f hf).1, (hfields f hf).2.2, by omega, by omega,
        by omega⟩
    have hbody : ∀ e ∈ kw :: nameN :: lb :: (fields ++ [rb]),
        e.kind ≠ "\x7b" := by
      intro e he
      simp only [List.mem_cons, List.mem_append, List.mem_singleton,
        List.not_mem_nil, or_false] at he
      rcases he with rfl | rfl | rfl | hf | rfl
      · exact hkw2
      · exact hn2
      · rw [hlb]; decide
      · rw [(hfields e hf).1]; decide
      · rw [hrb]; decide
    have hsplit : kw :: nameN :: lb :: (fields ++ [rb, lcb, rcb])
        = (kw :: nameN :: lb :: (fields ++ [rb])) ++ [lcb, rcb] := by
      simp
    have htail : ("\n" : String) ++ ("]" ++ ("\n" ++ ("\x7b"
        ++ ("\n" ++ "\x7d")))) = "\n]\n\x7b\n\x7d" := rfl
    have hbr : ("\x7d" : String).utf8ByteSize = 1 := rfl
    rw [format_proto, hname, hch]
    simp only [errAtLoc, except_bind_ok]
    rw [hfilter, hfs2]
    simp only [except_bind_ok, print_inplace_mk, hin, level_update_mk]
    rw [protoHeaderLoop_pre flt _ _ kw nameN lb hkw1 hn1 hlb _ 0]
    rw [protoHeaderLoop_fields flt
      (⟨colWidth ns 0 fields, colWidth ns 1 fields,
        colWidth ns 2 fields, colWidth ns 3 fields⟩ : FieldSizes)
      rb lcb rcb hrb hlcb1 hrcb1 hlcb2 hrcb2 hlcb3 hrcb3 hlcb4 hrcb4
      fields hflds2 _ args _ _ _ _ _ hin]
    simp only [except_bind_ok, println_inplace_mk, hin, level_update_mk]
    rw [hsplit, protoBodyLoop_pre flt _ hbody _ _]
    rw [protoBodyLoop]
    simp only [hlcb]
    rw [if_pos (by decide)]
    rw [protoBodyLoop]
    simp only [hrcb]
    rw [if_neg (by decide), if_neg (by decide), if_neg (by decide),
      if_neg (by decide)]
    rw [protoBodyLoop]
    simp only [except_bind_ok, print_inplace_mk, hin]
    simp only [Except.ok.injEq, State.mk.injEq, and_true, true_and,
      String.append_assoc, String.append_empty, htail, hbr]
    all_goals omega
  · intro f hf
    have h0 := colWidth_ge ns 0 fields f hf
    have h1 := colWidth_ge ns 1 fields f hf
    have h2 := colWidth_ge ns 2 fields f hf
    exact ⟨by omega, by omega, by omega⟩

/-- A concrete two-field proto (PROTO X [ ... ]) used to witness C7. -/
def C7_kw : TSNode := mkNode "PROTO" false none 0 0 0 5 "PROTO" []

def C7_name : TSNode := mkNode "identifier" true (some "proto") 0 6 0 7 "X" []

def C7_lb : TSNode := mkNode "[" false none 0 8 0 9 "[" []

def C7_f2 : TSNode :=
  mkNode "field" true none 2 2 2 20 "field SFInt32 bb 2"
    [ mkNode "fieldkw" false none 2 2 2 7 "field" [],
      mkNode "type" true none 2 8 2 15 "SFInt32" [],
      mkNode "identifier" true none 2 16 2 18 "bb" [],
      mkNode "number" true none 2 19 2 20 "2" [] ]

def C7_rb : TSNode := mkNode "]" false none 3 0 3 1 "]" []

def C7_lcb : TSNode := mkNode "\x7b" false none 4 0 4 1 "\x7b" []

def C7_rcb : TSNode := mkNode "\x7d" false none 4 2 4 3 "\x7d" []

def C7_node : TSNode :=
  mkNode "proto" true none 0 0 4 3 ""
    [C7_kw, C7_name, C7_lb, fieldNodeA, C7_f2, C7_rb, C7_lcb, C7_rcb]

set_option maxRecDepth 4000 in
theorem C7_witness :
    C7_node.child_by_field_name "proto" = some C7_name ∧
    format_proto idFlt (State.mk "" ⟨[], true⟩ "" 0 0 0 0 2) C7_node
      = .ok (State.mk
          "PROTO X [\n  field  SFFloat  a   1\n  field  SFInt32  bb  2\n]\n\x7b\n\x7d"
          ⟨[], true⟩ "" 1 5 0 0 2) := by
  have h := C7_theorem idFlt "" ⟨[], true⟩ "" 0 0 0 2 C7_node C7_kw C7_name
    C7_lb C7_rb C7_lcb C7_rcb [fieldNodeA, C7_f2] rfl rfl rfl
    (by decide) (by decide) rfl (by decide) (by decide) (by decide) rfl
    rfl rfl rfl rfl rfl rfl rfl rfl
    (by
      intro f hf
      simp only [List.mem_cons, List.not_mem_nil, or_false] at hf
      rcases hf with rfl | rfl
      · exact ⟨rfl, rfl,
          ⟨_, _, _, _, rfl, ⟨by decide, by decide, by decide, by decide, by decide, by decide, by decide, by decide⟩,
            ⟨by decide, by decide, by decide, by decide, by decide, by decide, by decide, by decide⟩,
            ⟨by decide, by decide, by decide, by decide, by decide, by decide, by decide, by decide⟩,
            ⟨by decide, by decide, by decide, by decide, by decide, by decide, by decide, by decide⟩⟩⟩
      · exact ⟨rfl, rfl,
          ⟨_, _, _, _, rfl, ⟨by decide, by decide, by decide, by decide, by decide, by decide, by decide, by decide⟩,
            ⟨by decide, by decide, by decide, by decide, by decide, by decide, by decide, by decide⟩,
            ⟨by decide, by decide, by decide, by decide, by decide, by decide, by decide, by decide⟩,
            ⟨by decide, by decide, by decide, by decide, by decide, by decide, by decide, by decide⟩⟩⟩)
  refine ⟨rfl, ?_⟩
  rw [h.1]
  rfl

/-
Claim C9 machinery: a simulation between two runs of the engine that agree
on everything the layout logic reads (cursor, row, level, extra
indentation, indent width) but may differ in the inplace flag, the file
list and the two output sinks.  Each engine function is shown to emit the
same delta on both sides, into the sink selected by each side's own flag.
-/

/-- The layout-relevant state components agree. -/
def Cur (a b : State) : Prop :=
  a.col = b.col ∧ a.row = b.row ∧ a.level = b.level ∧
  a.extra_indentation = b.extra_indentation ∧ a.num_spaces = b.num_spaces

/-- Between a and a2 exactly d was emitted: it went to the sink selected by
the inplace flag, the other sink and the arguments are untouched. -/
def Emits (a a2 : State) (d : String) : Prop :=
  a2.arguments = a.arguments ∧
  ((a.arguments.inplace = true ∧ a2.formatted = a.formatted ++ d
      ∧ a2.stdout = a.stdout)
   ∨ (a.arguments.inplace = false ∧ a2.stdout = a.stdout ++ d
      ∧ a2.formatted = a.formatted))

/-- Relate the two runs' results: the same failure, or layout-equal states
that emitted the same delta. -/
def SimR (a b : State) :
    Except Failure State → Except Failure State → Prop
  | .ok a2, .ok b2 => Cur a2 b2 ∧ ∃ d, Emits a a2 d ∧ Emits b b2 d
  | .error e1, .error e2 => e1 = e2
  | _, _ => False

/-- Relate two capture-mode (inplace) runs that carry an extra value:
equal payloads, equal buffers, untouched stdout and arguments. -/
def SimP {α : Type} (a b : State) :
    Except Failure (State × α) → Except Failure (State × α) → Prop
  | .ok (a2, x), .ok (b2, y) => Cur a2 b2 ∧ x = y
      ∧ a2.formatted = b2.formatted
      ∧ a2.stdout = a.stdout ∧ b2.stdout = b.stdout
      ∧ a2.arguments = a.arguments ∧ b2.arguments = b.arguments
  | .error e1, .error e2 => e1 = e2
  | _, _ => False

/-- Relate the two runs of the measurement pass: equal sizes and no net
emission on either side. -/
def SimFS (a b : State) :
    Except Failure (State × FieldSizes) → Except Failure (State × FieldSizes)
      → Prop
  | .ok (a2, x), .ok (b2, y) => Cur a2 b2 ∧ x = y
      ∧ Emits a a2 "" ∧ Emits b b2 ""
  | .error e1, .error e2 => e1 = e2
  | _, _ => False

theorem emits_refl (a : State) : Emits a a "" := by
  refine ⟨rfl, ?_⟩
  cases h : a.arguments.inplace
  · exact Or.inr ⟨rfl, by rw [String.append_empty], rfl⟩
  · exact Or.inl ⟨rfl, by rw [String.append_empty], rfl⟩

theorem emits_trans {a a2 a3 : State} {d e : String}
    (h1 : Emits a a2 d) (h2 : Emits a2 a3 e) : Emits a a3 (d ++ e) := by
  obtain ⟨hargs1, hc1⟩ := h1
  obtain ⟨hargs2, hc2⟩ := h2
  refine ⟨hargs2.trans hargs1, ?_⟩
  rcases hc1 with ⟨hip, hf1, hs1⟩ | ⟨hip, hs1, hf1⟩
  · rcases hc2 with ⟨_, hf2, hs2⟩ | ⟨hip2, _, _⟩
    · exact Or.inl ⟨hip, by rw [hf2, hf1, String.append_assoc],
        by rw [hs2, hs1]⟩
    · rw [hargs1, hip] at hip2; exact absurd hip2 (by decide)
  · rcases hc2 with ⟨hip2, _, _⟩ | ⟨_, hs2, hf2⟩
    · rw [hargs1, hip] at hip2; exact absurd hip2 (by decide)
    · exact Or.inr ⟨hip, by rw [hs2, hs1, String.append_assoc],
        by rw [hf2, hf1]⟩

theorem emits_print (a : State) (x : String) : Emits a (a.print x) x := by
  cases h : a.arguments.inplace <;>
    simp [State.print, Emits, h]

theorem emits_println (a : State) (x : String) :
    Emits a (a.println x) (x ++ "\n") := by
  cases h : a.arguments.inplace <;>
    simp [State.println, Emits, h, String.append_assoc]

theorem emits_level {a a2 : State} {d : String} (h : Emits a a2 d) (L : Nat) :
    Emits a ({ a2 with level := L }) d := by
  obtain ⟨hargs, hc⟩ := h
  exact ⟨hargs, hc⟩

theorem cur_print {a b : State} (h : Cur a b) (x : String) :
    Cur (a.print x) (b.print x) := by
  obtain ⟨h1, h2, h3, h4, h5⟩ := h
  cases ha : a.arguments.inplace <;> cases hb : b.arguments.inplace <;>
    simp [State.print, Cur, ha, hb, h1, h2, h3, h4, h5]

theorem cur_println {a b : State} (h : Cur a b) (x : String) :
    Cur (a.println x) (b.println x) := by
  obtain ⟨h1, h2, h3, h4, h5⟩ := h
  cases ha : a.arguments.inplace <;> cases hb : b.arguments.inplace <;>
    simp [State.println, Cur, ha, hb, h1, h2, h3, h4, h5]

theorem cur_level {a b : State} (h : Cur a b) (L M : Nat) (hLM : L = M) :
    Cur ({ a with level := L }) ({ b with level := M }) := by
  obtain ⟨h1, h2, h3, h4, h5⟩ := h
  exact ⟨h1, h2, hLM, h4, h5⟩

/-- Both sides indent by the same string (the layout fields agree), so
indentation is one common print. -/
theorem indent_delta {a b : State} (h : Cur a b) :
    a.indent = a.print (spaces (a.level * a.num_spaces + a.extra_indentation))
    ∧ b.indent
      = b.print (spaces (a.level * a.num_spaces + a.extra_indentation)) := by
  obtain ⟨h1, h2, h3, h4, h5⟩ := h
  constructor
  · exact indent_eq_print_spaces a
  · rw [indent_eq_print_spaces b, h3, h4, h5]

theorem simR_mono {a b a2 b2 : State} {d : String}
    (ha : Emits a a2 d) (hb : Emits b b2 d) :
    ∀ r1 r2, SimR a2 b2 r1 r2 → SimR a b r1 r2
  | .ok a3, .ok b3, h => by
      obtain ⟨hcur, e, h3a, h3b⟩ := h
      exact ⟨hcur, d ++ e, emits_trans ha h3a, emits_trans hb h3b⟩
  | .error e1, .error e2, h => h
  | .ok _, .error _, h => h.elim
  | .error _, .ok _, h => h.elim

theorem simR_bind (a b : State) (r1 r2 : Except Failure State)
    (f g : State → Except Failure State)
    (h : SimR a b r1 r2)
    (hfg : ∀ a2 b2, Cur a2 b2 → SimR a2 b2 (f a2) (g b2)) :
    SimR a b (r1 >>= f) (r2 >>= g) := by
  cases r1 with
  | error e1 =>
      cases r2 with
      | error e2 => exact h
      | ok b2 => exact h.elim
  | ok a2 =>
      cases r2 with
      | error e2 => exact h.elim
      | ok b2 =>
          obtain ⟨hcur, d, ha, hb⟩ := h
          exact simR_mono ha hb _ _ (hfg a2 b2 hcur)

theorem simR_ok {a b a2 b2 : State} {d : String} (hcur : Cur a2 b2)
    (ha : Emits a a2 d) (hb : Emits b b2 d) :
    SimR a b (.ok a2) (.ok b2) :=
  ⟨hcur, d, ha, hb⟩

theorem cur_indent {a b : State} (h : Cur a b) : Cur a.indent b.indent := by
  obtain ⟨hia, hib⟩ := indent_delta h
  rw [hia, hib]
  exact cur_print h _

theorem emits_indent_pair {a b : State} (h : Cur a b) :
    Emits a a.indent (spaces (a.level * a.num_spaces + a.extra_indentation))
    ∧ Emits b b.indent
        (spaces (a.level * a.num_spaces + a.extra_indentation)) := by
  obtain ⟨hia, hib⟩ := indent_delta h
  constructor
  · rw [hia]; exact emits_print a _
  · rw [hib]; exact emits_print b _

theorem format_comment_sim (node : TSNode) (a b : State) (h : Cur a b) :
    SimR a b (format_comment a node) (format_comment b node) := by
  simp only [format_comment]
  cases h1 : strStartsWith (rustTrim node.text) "##"
  · rw [if_neg Bool.false_ne_true]
    cases h2 : strStartsWith (rustTrim (if strStartsWith node.text "#"
        then String.drop node.text 1 else node.text)) "VRML"
    · rw [if_neg Bool.false_ne_true]
      exact simR_ok (cur_print (cur_print (cur_print h "#") " ") _)
        (emits_trans (emits_trans (emits_print a "#") (emits_print _ " "))
          (emits_print _ _))
        (emits_trans (emits_trans (emits_print b "#") (emits_print _ " "))
          (emits_print _ _))
    · rw [if_pos (rfl : true = true)]
      exact simR_ok (cur_print (cur_print h "#") _)
        (emits_trans (emits_print a "#") (emits_print _ _))
        (emits_trans (emits_print b "#") (emits_print _ _))
  · rw [if_pos (rfl : true = true)]
    exact simR_ok (cur_print h _) (emits_print _ _) (emits_print _ _)

theorem externLoop_sim :
    ∀ (l : List TSNode) (i : Nat) (a b : State), Cur a b →
      Cur (externLoop a l i) (externLoop b l i)
      ∧ ∃ d, Emits a (externLoop a l i) d ∧ Emits b (externLoop b l i) d
  | [], i, a, b, h => by
      rw [externLoop, externLoop]
      exact ⟨h, "", emits_refl a, emits_refl b⟩
  | child :: rest, i, a, b, h => by
      rw [externLoop, externLoop]
      cases hi : (i != 0)
      · rw [if_neg (by decide), if_neg (by decide)]
        obtain ⟨hcur, d, hda, hdb⟩ := externLoop_sim rest (i + 1)
          (a.print child.text) (b.print child.text) (cur_print h _)
        exact ⟨hcur, child.text ++ d,
          emits_trans (emits_print a _) hda,
          emits_trans (emits_print b _) hdb⟩
      · rw [if_pos rfl, if_pos rfl]
        obtain ⟨hcur, d, hda, hdb⟩ := externLoop_sim rest (i + 1)
          ((a.print " ").print child.text) ((b.print " ").print child.text)
          (cur_print (cur_print h _) _)
        exact ⟨hcur, (" " ++ child.text) ++ d,
          emits_trans (emits_trans (emits_print a " ") (emits_print _ _)) hda,
          emits_trans (emits_trans (emits_print b " ") (emits_print _ _)) hdb⟩

theorem format_extern_sim (node : TSNode) (a b : State) (h : Cur a b) :
    SimR a b ( format_extern a node) ( format_extern b node) := by
  rw [ format_extern, format_extern]
  obtain ⟨hcur, d, hda, hdb⟩ := externLoop_sim node.children.toList 0 a b h
  exact simR_ok hcur hda hdb

theorem jsLinesLoop_sim :
    ∀ (lines : List String) (a b : State), Cur a b →
      Cur (jsLinesLoop a lines) (jsLinesLoop b lines)
      ∧ ∃ d, Emits a (jsLinesLoop a lines) d
           ∧ Emits b (jsLinesLoop b lines) d
  | [], a, b, h => by
      rw [jsLinesLoop, jsLinesLoop]
      exact ⟨h, "", emits_refl a, emits_refl b⟩
  | line :: rest, a, b, h => by
      rw [jsLinesLoop, jsLinesLoop]
      obtain ⟨hia, hib⟩ := emits_indent_pair h
      have hcur2 : Cur (a.indent.println line) (b.indent.println line) :=
        cur_println (cur_indent h) line
      obtain ⟨hcur, d, hda, hdb⟩ := jsLinesLoop_sim rest _ _ hcur2
      exact ⟨hcur,
        (spaces (a.level * a.num_spaces + a.extra_indentation)
          ++ (line ++ "\n")) ++ d,
        emits_trans (emits_trans hia (emits_println _ line)) hda,
        emits_trans (emits_trans hib (emits_println _ line)) hdb⟩

theorem cur_level_add {a b : State} (h : Cur a b) (k : Nat) :
    Cur ({ a with level := a.level + k }) ({ b with level := b.level + k }) :=
  ⟨h.1, h.2.1, by rw [h.2.2.1], h.2.2.2.1, h.2.2.2.2⟩

theorem cur_level_sub {a b : State} (h : Cur a b) (k : Nat) :
    Cur ({ a with level := a.level - k }) ({ b with level := b.level - k }) :=
  ⟨h.1, h.2.1, by rw [h.2.2.1], h.2.2.2.1, h.2.2.2.2⟩

theorem format_javascript_sim (flt : JSFilter) (node : TSNode)
    (a b : State) (h : Cur a b) :
    SimR a b (format_javascript flt a node) (format_javascript flt b node) := by
  simp only [format_javascript]
  cases hop : errAtLoc (node.child 0) node with
  | error e => simp only [hop, except_bind_error]; exact rfl
  | ok opener =>
      simp only [hop, except_bind_ok]
      cases hcd : errAtLoc
          (node.children.toList.find? (fun n => n.kind == "code")) node with
      | error e => simp only [hcd, except_bind_error]; exact rfl
      | ok code =>
          simp only [hcd, except_bind_ok]
          cases hres : flt code.text with
          | spawnFailure => exact rfl
          | writeFailure => exact rfl
          | waitFailure => exact rfl
          | output o ec =>
              cases o with
              | none => exact rfl
              | some out =>
                  cases ho : (node.startPoint.row == node.endPoint.row)
                  · have hc1 : Cur (a.println opener.text)
                        (b.println opener.text) := cur_println h _
                    have hc2 := cur_level_add hc1 1
                    obtain ⟨hc3, d, hd3a, hd3b⟩ := jsLinesLoop_sim
                      (rustLines (rustTrim out)) _ _ hc2
                    have hc4 := cur_level_sub hc3 1
                    obtain ⟨hia, hib⟩ := emits_indent_pair hc4
                    exact simR_ok (cur_print (cur_indent hc4) _)
                      (emits_trans (emits_trans
                        (emits_level (emits_trans
                          (emits_level (emits_println a _) _) hd3a) _)
                        hia) (emits_print _ _))
                      (emits_trans (emits_trans
                        (emits_level (emits_trans
                          (emits_level (emits_println b _) _) hd3b) _)
                        hib) (emits_print _ _))
                  · exact simR_ok
                      (cur_print (cur_print (cur_print (cur_print h _) _) _) _)
                      (emits_trans (emits_trans (emits_trans
                        (emits_print a _) (emits_print _ _))
                        (emits_print _ _)) (emits_print _ _))
                      (emits_trans (emits_trans (emits_trans
                        (emits_print b _) (emits_print _ _))
                        (emits_print _ _)) (emits_print _ _))

theorem cur_print2 {a b : State} (h : Cur a b) {x y : String} (hxy : x = y) :
    Cur (a.print x) (b.print y) := by
  subst hxy
  exact cur_print h x

theorem emits_print2 (s : State) {x y : String} (hxy : y = x) :
    Emits s (s.print y) x := by
  rw [hxy]
  exact emits_print s x

theorem emits_nothing {a a2 : State} (hargs : a2.arguments = a.arguments)
    (hf : a2.formatted = a.formatted) (hs : a2.stdout = a.stdout) :
    Emits a a2 "" := by
  refine ⟨hargs, ?_⟩
  cases hip : a.arguments.inplace
  · exact Or.inr ⟨rfl, by rw [hs, String.append_empty], hf⟩
  · exact Or.inl ⟨rfl, by rw [hf, String.append_empty], hs⟩

theorem simP_mono {α : Type} {a b a2 b2 : State}
    (hsa : a2.stdout = a.stdout) (hsb : b2.stdout = b.stdout)
    (hba : a2.arguments = a.arguments) (hbb : b2.arguments = b.arguments) :
    ∀ (r1 r2 : Except Failure (State × α)),
      SimP a2 b2 r1 r2 → SimP a b r1 r2
  | .ok (x, q), .ok (y, q2), h =>
      ⟨h.1, h.2.1, h.2.2.1, h.2.2.2.1.trans hsa, h.2.2.2.2.1.trans hsb,
       h.2.2.2.2.2.1.trans hba, h.2.2.2.2.2.2.trans hbb⟩
  | .error e1, .error e2, h => h
  | .ok (x, q), .error e2, h => h.elim
  | .error e1, .ok (y, q), h => h.elim

theorem simP_bind {α β : Type} (a b : State)
    (r1 r2 : Except Failure (State × α))
    (f g : State × α → Except Failure (State × β))
    (h : SimP a b r1 r2)
    (hfg : ∀ a2 b2 z, Cur a2 b2 → a2.formatted = b2.formatted →
        a2.stdout = a.stdout → b2.stdout = b.stdout →
        a2.arguments = a.arguments → b2.arguments = b.arguments →
        SimP a b (f (a2, z)) (g (b2, z))) :
    SimP a b (r1 >>= f) (r2 >>= g) := by
  cases r1 with
  | error e1 =>
      cases r2 with
      | error e2 => exact h
      | ok p => obtain ⟨b2, z⟩ := p; exact h.elim
  | ok p =>
      obtain ⟨a2, z⟩ := p
      cases r2 with
      | error e2 => exact h.elim
      | ok p2 =>
          obtain ⟨b2, z2⟩ := p2
          obtain ⟨hc, hz, hf, hsa, hsb, hba, hbb⟩ := h
          subst hz
          exact hfg a2 b2 z hc hf hsa hsb hba hbb

theorem simFS_bind (a b : State)
    (r1 r2 : Except Failure (State × FieldSizes))
    (f g : State × FieldSizes → Except Failure State)
    (h : SimFS a b r1 r2)
    (hfg : ∀ a2 b2 z, Cur a2 b2 → Emits a a2 "" → Emits b b2 "" →
        SimR a2 b2 (f (a2, z)) (g (b2, z))) :
    SimR a b (r1 >>= f) (r2 >>= g) := by
  cases r1 with
  | error e1 =>
      cases r2 with
      | error e2 => exact h
      | ok p => obtain ⟨b2, z⟩ := p; exact h.elim
  | ok p =>
      obtain ⟨a2, z⟩ := p
      cases r2 with
      | error e2 => exact h.elim
      | ok p2 =>
          obtain ⟨b2, z2⟩ := p2
          obtain ⟨hc, hz, hea, heb⟩ := h
          subst hz
          have hlift := hfg a2 b2 z hc hea heb
          exact simR_mono hea heb _ _ hlift

set_option maxHeartbeats 1000000 in
mutual

/-- The two runs of format_node emit the same delta. -/
theorem format_node_sim (flt : JSFilter) :
    ∀ (node : TSNode) (a b : State), Cur a b →
      SimR a b (format_node flt a node) (format_node flt b node)
  | node, a, b, h => by
      rw [format_node, format_node]
      cases h1 : (node.kind == "node")
      case true => exact format_node_def_sim flt node a b h
      case false =>
      cases h2 : (node.kind == "comment")
      case true => exact format_comment_sim node a b h
      case false =>
      cases h3 : (node.kind == "extern")
      case true => exact format_extern_sim node a b h
      case false =>
      cases h4 : (node.kind == "property")
      case true => exact format_property_sim flt node a b h
      case false =>
      cases h5 : (node.kind == "proto")
      case true => exact format_proto_sim flt node a b h
      case false =>
      cases h6 : (node.kind == "vector")
      case true => exact format_vector_sim flt node a b h
      case false =>
      cases h7 : (node.kind == "javascript_block")
      case true => exact format_javascript_sim flt node a b h
      case false =>
      cases h8 : (node.kind == "javascript_expression")
      case true => exact format_javascript_sim flt node a b h
      case false =>
        exact simR_ok (cur_print h _) (emits_print _ _) (emits_print _ _)
termination_by node a b h => 4 * sizeOf node + 3
decreasing_by
  all_goals omega

/-- The two runs of format_document emit the same delta. -/
theorem format_document_sim (flt : JSFilter) :
    ∀ (node : TSNode) (a b : State), Cur a b →
      SimR a b (format_document flt a node) (format_document flt b node)
  | node, a, b, h => by
      rw [format_document, format_document]
      exact documentLoop_sim flt node.children.toList node true a b h
termination_by node a b h => 4 * sizeOf node + 2
decreasing_by
  all_goals
    (have hc := TSNode.sizeOf_children node
     have ht := TSNodeList.sizeOf_toList node.children
     omega)

/-- The two runs of the document loop emit the same delta. -/
theorem documentLoop_sim (flt : JSFilter) :
    ∀ (l : List TSNode) (ln : TSNode) (lip : Bool) (a b : State), Cur a b →
      SimR a b (documentLoop flt a l ln lip) (documentLoop flt b l ln lip)
  | [], ln, lip, a, b, h => by
      rw [documentLoop, documentLoop]
      exact simR_ok h (emits_refl a) (emits_refl b)
  | child :: rest, ln, lip, a, b, h => by
      rw [documentLoop, documentLoop]
      cases hk1 : (child.kind == "comment")
      case true =>
        cases hr1 : (ln.endPoint.row == child.startPoint.row)
        case true =>
          exact simR_mono (emits_print a " ") (emits_print b " ") _ _
            (simR_bind _ _ _ _ _ _
              (format_comment_sim child _ _ (cur_print h " "))
              (fun a3 b3 h3 => simR_mono (emits_println a3 "")
                (emits_println b3 "") _ _
                (documentLoop_sim flt rest child false _ _
                  (cur_println h3 ""))))
        case false =>
          cases hr2 : (lip == false
              && child.startPoint.row - ln.endPoint.row > 1)
          case true =>
            exact simR_mono (emits_println a "") (emits_println b "") _ _
              (simR_bind _ _ _ _ _ _
                (format_comment_sim child _ _ (cur_println h ""))
                (fun a3 b3 h3 => simR_mono (emits_println a3 "")
                  (emits_println b3 "") _ _
                  (documentLoop_sim flt rest child false _ _
                    (cur_println h3 ""))))
          case false =>
            exact simR_bind a b _ _ _ _ (format_comment_sim child a b h)
              (fun a3 b3 h3 => simR_mono (emits_println a3 "")
                (emits_println b3 "") _ _
                (documentLoop_sim flt rest child false _ _
                  (cur_println h3 "")))
      case false =>
      cases hk2 : (child.kind == "extern")
      case true =>
        cases hr2 : (lip == false && (ln.kind == "comment"
            || child.startPoint.row - ln.endPoint.row > 1))
        case true =>
          exact simR_mono (emits_println a "") (emits_println b "") _ _
            (simR_bind _ _ _ _ _ _
              (format_extern_sim child _ _ (cur_println h ""))
              (fun a3 b3 h3 => simR_mono (emits_println a3 "")
                (emits_println b3 "") _ _
                (documentLoop_sim flt rest child false _ _
                  (cur_println h3 ""))))
        case false =>
          exact simR_bind a b _ _ _ _ (format_extern_sim child a b h)
            (fun a3 b3 h3 => simR_mono (emits_println a3 "")
              (emits_println b3 "") _ _
              (documentLoop_sim flt rest child false _ _
                (cur_println h3 "")))
      case false =>
      cases hk3 : (child.kind == "proto")
      case true =>
        exact simR_mono (emits_println a "") (emits_println b "") _ _
          (simR_bind _ _ _ _ _ _
            (format_proto_sim flt child _ _ (cur_println h ""))
            (fun a3 b3 h3 => documentLoop_sim flt rest child false a3 b3 h3))
      case false =>
        exact simR_mono (emits_println a "") (emits_println b "") _ _
          (simR_bind _ _ _ _ _ _
            (format_node_sim flt child _ _ (cur_println h ""))
            (fun a3 b3 h3 => documentLoop_sim flt rest child false a3 b3 h3))
termination_by l ln lip a b h => 4 * sizeOf l
decreasing_by
  all_goals first
    | omega
    | (simp; omega)
    | simp

/-- The two runs of format_proto emit the same delta. -/
theorem format_proto_sim (flt : JSFilter) :
    ∀ (node : TSNode) (a b : State), Cur a b →
      SimR a b (format_proto flt a node) (format_proto flt b node)
  | node, a, b, h => by
      rw [format_proto, format_proto]
      cases hname : errAtLoc (node.child_by_field_name "proto") node with
      | error e => exact rfl
      | ok name =>
          simp only [except_bind_ok]
          refine simFS_bind a b _ _ _ _ (field_sizes_sim flt _ a b h) ?_
          intro a2 b2 z hc2 hea heb
          refine simR_mono
            (emits_level (emits_trans (emits_trans (emits_print a2 "PROTO ")
              (emits_print _ name.text)) (emits_print _ " [")) 1)
            (emits_level (emits_trans (emits_trans (emits_print b2 "PROTO ")
              (emits_print _ name.text)) (emits_print _ " [")) 1) _ _ ?_
          refine simR_bind _ _ _ _ _ _
            (protoHeaderLoop_sim flt node.children.toList z false 0 0 rfl _ _
              (cur_level
                (cur_print (cur_print (cur_print hc2 _) _) _) 1 1 rfl)) ?_
          intro a3 b3 h3
          refine simR_mono
            (emits_level (emits_trans (emits_trans (emits_println a3 "")
              (emits_println _ "]")) (emits_println _ "\x7b")) 0)
            (emits_level (emits_trans (emits_trans (emits_println b3 "")
              (emits_println _ "]")) (emits_println _ "\x7b")) 0) _ _ ?_
          refine simR_bind _ _ _ _ _ _
            (protoBodyLoop_sim flt node.children.toList false _ _
              (cur_level
                (cur_println (cur_println (cur_println h3 _) _) _) 0 0 rfl)) ?_
          intro a4 b4 h4
          exact simR_ok (cur_print h4 _) (emits_print _ _) (emits_print _ _)
termination_by node a b h => 4 * sizeOf node + 2
decreasing_by
  all_goals
    (have hc := TSNode.sizeOf_children node
     have ht := TSNodeList.sizeOf_toList node.children
     have hf1 := sizeOf_filter_le (fun n => n.named) node.children.toList
     have hf2 := sizeOf_filter_le (fun n => n.kind == "field")
       (node.children.toList.filter (fun n => n.named))
     omega)

/-- The two runs of the proto header loop emit the same delta. -/
theorem protoHeaderLoop_sim (flt : JSFilter) :
    ∀ (l : List TSNode) (z : FieldSizes) (ok : Bool) (ll1 ll2 : Nat),
      ll1 = ll2 → ∀ (a b : State), Cur a b →
      SimR a b (protoHeaderLoop flt a l z ok ll1)
        (protoHeaderLoop flt b l z ok ll2)
  | [], z, ok, ll1, ll2, hll, a, b, h => by
      subst hll
      rw [protoHeaderLoop, protoHeaderLoop]
      exact simR_ok h (emits_refl a) (emits_refl b)
  | child :: rest, z, ok, ll1, ll2, hll, a, b, h => by
      subst hll
      rw [protoHeaderLoop, protoHeaderLoop]
      cases hk1 : (child.kind == "[" && ok == false)
      case true => exact protoHeaderLoop_sim flt rest z true ll1 ll1 rfl a b h
      case false =>
      cases hk2 : (child.kind == "]" && ok)
      case true => exact protoHeaderLoop_sim flt rest z false ll1 ll1 rfl a b h
      case false =>
      cases hk3 : (child.kind == "field" && ok)
      case true =>
        have hc1 : Cur ((a.println "").indent) ((b.println "").indent) :=
          cur_indent (cur_println h "")
        refine simR_mono
          (emits_trans (emits_println a "")
            (emits_indent_pair (cur_println h "")).1)
          (emits_trans (emits_println b "")
            (emits_indent_pair (cur_println h "")).2) _ _ ?_
        refine simR_bind _ _ _ _ _ _
          (protoFieldParts_sim flt child.children.toList _ _ z.type_size
            z.name_size ?_ _ _ hc1) ?_
        · rw [hc1.2.2.1, hc1.2.2.2.2]
        · intro a2 b2 h2
          exact protoHeaderLoop_sim flt rest z ok child.endPoint.row
            child.endPoint.row rfl a2 b2 h2
      case false =>
      cases hk4 : (child.kind == "comment" && ok)
      case true =>
        cases hrow : (child.startPoint.row != ll1)
        case true =>
          refine simR_mono
            (emits_trans (emits_println a "")
              (emits_indent_pair (cur_println h "")).1)
            (emits_trans (emits_println b "")
              (emits_indent_pair (cur_println h "")).2) _ _ ?_
          refine simR_bind _ _ _ _ _ _
            (format_comment_sim child _ _ (cur_indent (cur_println h ""))) ?_
          intro a2 b2 h2
          exact protoHeaderLoop_sim flt rest z ok a2.row b2.row h2.2.1
            a2 b2 h2
        case false =>
          refine simR_mono (emits_print a _)
            (emits_print2 b (show spaces (b.level * b.num_spaces
                + z.kind_size + z.type_size + z.name_size + z.value_size
                - b.col)
              = spaces (a.level * a.num_spaces + z.kind_size + z.type_size
                + z.name_size + z.value_size - a.col) by
              rw [h.1, h.2.2.1, h.2.2.2.2])) _ _ ?_
          refine simR_bind _ _ _ _ _ _
            (format_comment_sim child _ _
              (cur_print2 h (show spaces (a.level * a.num_spaces
                  + z.kind_size + z.type_size + z.name_size + z.value_size
                  - a.col)
                = spaces (b.level * b.num_spaces + z.kind_size + z.type_size
                  + z.name_size + z.value_size - b.col) by
                rw [h.1, h.2.2.1, h.2.2.2.2]))) ?_
          intro a2 b2 h2
          exact protoHeaderLoop_sim flt rest z ok a2.row b2.row h2.2.1
            a2 b2 h2
      case false =>
        exact protoHeaderLoop_sim flt rest z ok ll1 ll1 rfl a b h
termination_by l z ok ll1 ll2 hll a b h => 4 * sizeOf l
decreasing_by
  all_goals
    (try (have hc := TSNode.sizeOf_children child
          have ht := TSNodeList.sizeOf_toList child.children))
    first
    | omega
    | (simp; omega)
    | simp

/-- The two runs of the field-parts printer emit the same delta. -/
theorem protoFieldParts_sim (flt : JSFilter) :
    ∀ (parts : List TSNode) (atCol1 atCol2 s1 s2 : Nat), atCol1 = atCol2 →
      ∀ (a b : State), Cur a b →
      SimR a b (protoFieldParts flt a parts atCol1 s1 s2)
        (protoFieldParts flt b parts atCol2 s1 s2)
  | [], atCol1, atCol2, s1, s2, hat, a, b, h => by
      subst hat
      rw [protoFieldParts, protoFieldParts]
      exact rfl
  | [kindN], atCol1, atCol2, s1, s2, hat, a, b, h => by
      subst hat
      rw [protoFieldParts, protoFieldParts]
      exact simR_bind a b _ _ _ _ (format_node_sim flt kindN a b h)
        (fun a2 b2 h2 => rfl)
  | [kindN, typeN], atCol1, atCol2, s1, s2, hat, a, b, h => by
      subst hat
      rw [protoFieldParts, protoFieldParts]
      refine simR_bind a b _ _ _ _ (format_node_sim flt kindN a b h) ?_
      intro a2 b2 h2
      refine simR_mono (emits_print a2 _)
        (emits_print2 b2 (show spaces (atCol1 - b2.col)
          = spaces (atCol1 - a2.col) by rw [h2.1])) _ _ ?_
      exact simR_bind _ _ _ _ _ _
        (format_node_sim flt typeN _ _ (cur_print2 h2
          (show spaces (atCol1 - a2.col) = spaces (atCol1 - b2.col) by
            rw [h2.1])))
        (fun a3 b3 h3 => rfl)
  | [kindN, typeN, nameN], atCol1, atCol2, s1, s2, hat, a, b, h => by
      subst hat
      rw [protoFieldParts, protoFieldParts]
      refine simR_bind a b _ _ _ _ (format_node_sim flt kindN a b h) ?_
      intro a2 b2 h2
      refine simR_mono (emits_print a2 _)
        (emits_print2 b2 (show spaces (atCol1 - b2.col)
          = spaces (atCol1 - a2.col) by rw [h2.1])) _ _ ?_
      refine simR_bind _ _ _ _ _ _
        (format_node_sim flt typeN _ _ (cur_print2 h2
          (show spaces (atCol1 - a2.col) = spaces (atCol1 - b2.col) by
            rw [h2.1]))) ?_
      intro a3 b3 h3
      refine simR_mono (emits_print a3 _)
        (emits_print2 b3 (show spaces (atCol1 + s1 - b3.col)
          = spaces (atCol1 + s1 - a3.col) by rw [h3.1])) _ _ ?_
      exact simR_bind _ _ _ _ _ _
        (format_node_sim flt nameN _ _ (cur_print2 h3
          (show spaces (atCol1 + s1 - a3.col)
            = spaces (atCol1 + s1 - b3.col) by rw [h3.1])))
        (fun a4 b4 h4 => rfl)
  | kindN :: typeN :: nameN :: valueN :: restP,
      atCol1, atCol2, s1, s2, hat, a, b, h => by
      subst hat
      rw [protoFieldParts, protoFieldParts]
      refine simR_bind a b _ _ _ _ (format_node_sim flt kindN a b h) ?_
      intro a2 b2 h2
      refine simR_mono (emits_print a2 _)
        (emits_print2 b2 (show spaces (atCol1 - b2.col)
          = spaces (atCol1 - a2.col) by rw [h2.1])) _ _ ?_
      refine simR_bind _ _ _ _ _ _
        (format_node_sim flt typeN _ _ (cur_print2 h2
          (show spaces (atCol1 - a2.col) = spaces (atCol1 - b2.col) by
            rw [h2.1]))) ?_
      intro a3 b3 h3
      refine simR_mono (emits_print a3 _)
        (emits_print2 b3 (show spaces (atCol1 + s1 - b3.col)
          = spaces (atCol1 + s1 - a3.col) by rw [h3.1])) _ _ ?_
      refine simR_bind _ _ _ _ _ _
        (format_node_sim flt nameN _ _ (cur_print2 h3
          (show spaces (atCol1 + s1 - a3.col)
            = spaces (atCol1 + s1 - b3.col) by rw [h3.1]))) ?_
      intro a4 b4 h4
      refine simR_mono (emits_print a4 _)
        (emits_print2 b4 (show spaces (atCol1 + s1 + s2 - b4.col)
          = spaces (atCol1 + s1 + s2 - a4.col) by rw [h4.1])) _ _ ?_
      exact format_node_sim flt valueN _ _ (cur_print2 h4
        (show spaces (atCol1 + s1 + s2 - a4.col)
          = spaces (atCol1 + s1 + s2 - b4.col) by rw [h4.1]))
termination_by parts atCol1 atCol2 s1 s2 hat a b h => 4 * sizeOf parts + 1
decreasing_by
  all_goals first
    | omega
    | (simp; omega)
    | simp

/-- The two runs of the proto body loop emit the same delta. -/
theorem protoBodyLoop_sim (flt : JSFilter) :
    ∀ (l : List TSNode) (ok : Bool) (a b : State), Cur a b →
      SimR a b (protoBodyLoop flt a l ok) (protoBodyLoop flt b l ok)
  | [], ok, a, b, h => by
      rw [protoBodyLoop, protoBodyLoop]
      exact simR_ok h (emits_refl a) (emits_refl b)
  | child :: rest, ok, a, b, h => by
      rw [protoBodyLoop, protoBodyLoop]
      cases hk1 : (child.kind == "\x7b" && ok == false)
      case true => exact protoBodyLoop_sim flt rest true a b h
      case false =>
      cases hk2 : (child.kind == "node" && ok)
      case true =>
        refine simR_bind a b _ _ _ _ (format_node_def_sim flt child a b h) ?_
        intro a2 b2 h2
        exact simR_mono (emits_println a2 "") (emits_println b2 "") _ _
          (protoBodyLoop_sim flt rest ok _ _ (cur_println h2 ""))
      case false =>
      cases hk3 : (child.kind == "comment" && ok)
      case true =>
        refine simR_bind a b _ _ _ _ (format_comment_sim child a b h) ?_
        intro a2 b2 h2
        exact simR_mono (emits_println a2 "") (emits_println b2 "") _ _
          (protoBodyLoop_sim flt rest ok _ _ (cur_println h2 ""))
      case false =>
      cases hk4 : (child.kind == "javascript_block" && ok)
      case true =>
        refine simR_bind a b _ _ _ _ (format_node_sim flt child a b h) ?_
        intro a2 b2 h2
        exact simR_mono (emits_println a2 "") (emits_println b2 "") _ _
          (protoBodyLoop_sim flt rest ok _ _ (cur_println h2 ""))
      case false =>
        exact protoBodyLoop_sim flt rest ok a b h
termination_by l ok a b h => 4 * sizeOf l
decreasing_by
  all_goals first
    | omega
    | (simp; omega)
    | simp

/-- The two runs of the measurement pass agree on the sizes and emit
nothing. -/
theorem field_sizes_sim (flt : JSFilter) :
    ∀ (fields : List TSNode) (a b : State), Cur a b →
      SimFS a b (field_sizes flt a fields) (field_sizes flt b fields)
  | fields, a, b, h => by
      rw [field_sizes, field_sizes]
      have hl := fieldSizesLoop_sim flt fields
        ({ a with formatted := "", arguments := { a.arguments with inplace := true } })
        ({ b with formatted := "", arguments := { b.arguments with inplace := true } })
        0 0 0 0 h rfl rfl rfl
      cases hr1 : fieldSizesLoop flt
          ({ a with formatted := "", arguments := { a.arguments with inplace := true } })
          fields 0 0 0 0 with
      | error e1 =>
          cases hr2 : fieldSizesLoop flt
              ({ b with formatted := "", arguments := { b.arguments with inplace := true } })
              fields 0 0 0 0 with
          | error e2 =>
              rw [hr1, hr2] at hl
              exact hl
          | ok p =>
              obtain ⟨b2, z⟩ := p
              rw [hr1, hr2] at hl
              exact hl.elim
      | ok p =>
          obtain ⟨a2, z1⟩ := p
          cases hr2 : fieldSizesLoop flt
              ({ b with formatted := "", arguments := { b.arguments with inplace := true } })
              fields 0 0 0 0 with
          | error e2 =>
              rw [hr1, hr2] at hl
              exact hl.elim
          | ok p2 =>
              obtain ⟨b2, z2⟩ := p2
              rw [hr1, hr2] at hl
              obtain ⟨hc2, hz, hf2, hsa, hsb, hba, hbb⟩ := hl
              subst hz
              refine ⟨hc2, rfl, ?_, ?_⟩
              · refine emits_nothing ?_ rfl hsa
                show ({ a2.arguments with inplace := a.arguments.inplace } : Arguments)
                  = a.arguments
                rw [hba]
              · refine emits_nothing ?_ rfl hsb
                show ({ b2.arguments with inplace := b.arguments.inplace } : Arguments)
                  = b.arguments
                rw [hbb]
termination_by fields a b h => 4 * sizeOf fields + 1
decreasing_by
  all_goals omega

/-- The two runs of the field-sizes loop agree on the maxima and keep the
capture buffers equal. -/
theorem fieldSizesLoop_sim (flt : JSFilter) :
    ∀ (l : List TSNode) (a b : State) (k t n v : Nat), Cur a b →
      a.arguments.inplace = true → b.arguments.inplace = true →
      a.formatted = b.formatted →
      SimP a b (fieldSizesLoop flt a l k t n v)
        (fieldSizesLoop flt b l k t n v)
  | [], a, b, k, t, n, v, h, hia, hib, hf => by
      rw [fieldSizesLoop, fieldSizesLoop]
      exact ⟨h, rfl, hf, rfl, rfl, rfl, rfl⟩
  | field :: rest, a, b, k, t, n, v, h, hia, hib, hf => by
      rw [fieldSizesLoop, fieldSizesLoop]
      refine simP_bind a b _ _ _ _
        (measureField_sim flt field.children.toList a b h hia hib hf) ?_
      intro a2 b2 z hc2 hf2 hsa hsb hba hbb
      obtain ⟨tk, tt, tn, tv⟩ := z
      have hnum : b2.num_spaces = a2.num_spaces := hc2.2.2.2.2.symm
      show SimP a b
        (fieldSizesLoop flt a2 rest (max k (tk + a2.num_spaces))
          (max t (tt + a2.num_spaces)) (max n (tn + a2.num_spaces))
          (max v (tv + a2.num_spaces)))
        (fieldSizesLoop flt b2 rest (max k (tk + b2.num_spaces))
          (max t (tt + b2.num_spaces)) (max n (tn + b2.num_spaces))
          (max v (tv + b2.num_spaces)))
      rw [hnum]
      exact simP_mono hsa hsb hba hbb _ _
        (fieldSizesLoop_sim flt rest a2 b2 _ _ _ _ hc2
          (by rw [hba]; exact hia) (by rw [hbb]; exact hib) hf2)
termination_by l a b k t n v h hia hib hf => 4 * sizeOf l
decreasing_by
  all_goals
    (try (have hcx := TSNode.sizeOf_children field
          have htx := TSNodeList.sizeOf_toList field.children))
    first
    | omega
    | (simp; omega)
    | simp

/-- One measurement step: the unwrap of a capture-mode format_node either
panics identically on both sides or returns buffer-equal states. -/
theorem capStep_sim (flt : JSFilter) :
    ∀ (tok : TSNode) (a b : State), Cur a b →
      a.arguments.inplace = true → b.arguments.inplace = true →
      a.formatted = b.formatted →
      (∃ e, unwrapResult (format_node flt a tok) = .error e
          ∧ unwrapResult (format_node flt b tok) = .error e)
      ∨ (∃ a2 b2, unwrapResult (format_node flt a tok) = .ok a2
          ∧ unwrapResult (format_node flt b tok) = .ok b2
          ∧ Cur a2 b2 ∧ a2.formatted = b2.formatted
          ∧ a2.stdout = a.stdout ∧ b2.stdout = b.stdout
          ∧ a2.arguments = a.arguments ∧ b2.arguments = b.arguments)
  | tok, a, b, h, hia, hib, hf => by
      have hsim := format_node_sim flt tok a b h
      cases hr1 : format_node flt a tok with
      | error e1 =>
          cases hr2 : format_node flt b tok with
          | error e2 =>
              rw [hr1, hr2] at hsim
              have he : e1 = e2 := hsim
              subst he
              cases e1 with
              | err m => exact Or.inl ⟨.panicked
                  "called Result::unwrap() on an Err value", rfl, rfl⟩
              | panicked m => exact Or.inl ⟨.panicked m, rfl, rfl⟩
          | ok b2 =>
              rw [hr1, hr2] at hsim
              exact hsim.elim
      | ok a2 =>
          cases hr2 : format_node flt b tok with
          | error e2 =>
              rw [hr1, hr2] at hsim
              exact hsim.elim
          | ok b2 =>
              rw [hr1, hr2] at hsim
              obtain ⟨hc2, d, hea, heb⟩ := hsim
              obtain ⟨hargsa, hca⟩ := hea
              obtain ⟨hargsb, hcb⟩ := heb
              rcases hca with ⟨_, hfa, hsa⟩ | ⟨hipf, _, _⟩
              · rcases hcb with ⟨_, hfb, hsb⟩ | ⟨hipf, _, _⟩
                · exact Or.inr ⟨a2, b2, rfl, rfl, hc2,
                    by rw [hfa, hfb, hf], hsa, hsb, hargsa, hargsb⟩
                · rw [hib] at hipf
                  exact absurd hipf (by decide)
              · rw [hia] at hipf
                exact absurd hipf (by decide)
termination_by tok a b h hia hib hf => 4 * sizeOf tok + 4
decreasing_by
  all_goals omega

/-- The two capture-mode runs of measureField agree on the four measured
lengths and keep the buffers equal. -/
theorem measureField_sim (flt : JSFilter) :
    ∀ (parts : List TSNode) (a b : State), Cur a b →
      a.arguments.inplace = true → b.arguments.inplace = true →
      a.formatted = b.formatted →
      SimP a b (measureField flt a parts) (measureField flt b parts)
  | [], a, b, h, hia, hib, hf => by
      rw [measureField, measureField]
      exact rfl
  | [kindN], a, b, h, hia, hib, hf => by
      rw [measureField, measureField]
      rcases capStep_sim flt kindN a b h hia hib hf with ⟨e, he1, he2⟩ |
        ⟨a2, b2, he1, he2, hc2, hf2, hsa, hsb, hba, hbb⟩
      · rw [he1, he2]
        exact rfl
      · rw [he1, he2]
        simp only [except_bind_ok]
        exact rfl
  | [kindN, typeN], a, b, h, hia, hib, hf => by
      rw [measureField, measureField]
      rcases capStep_sim flt kindN a b h hia hib hf with ⟨e, he1, he2⟩ |
        ⟨a2, b2, he1, he2, hc2, hf2, hsa, hsb, hba, hbb⟩
      · rw [he1, he2]
        exact rfl
      · rw [he1, he2]
        simp only [except_bind_ok]
        rcases capStep_sim flt typeN ({ a2 with formatted := "" })
            ({ b2 with formatted := "" }) hc2
            (by show a2.arguments.inplace = true; rw [hba]; exact hia)
            (by show b2.arguments.inplace = true; rw [hbb]; exact hib)
            rfl with ⟨e, hg1, hg2⟩ |
          ⟨a3, b3, hg1, hg2, hc3, hf3, hsa3, hsb3, hba3, hbb3⟩
        · rw [hg1, hg2]
          exact rfl
        · rw [hg1, hg2]
          simp only [except_bind_ok]
          exact rfl
  | [kindN, typeN, nameN], a, b, h, hia, hib, hf => by
      rw [measureField, measureField]
      rcases capStep_sim flt kindN a b h hia hib hf with ⟨e, he1, he2⟩ |
        ⟨a2, b2, he1, he2, hc2, hf2, hsa, hsb, hba, hbb⟩
      · rw [he1, he2]
        exact rfl
      · rw [he1, he2]
        simp only [except_bind_ok]
        rcases capStep_sim flt typeN ({ a2 with formatted := "" })
            ({ b2 with formatted := "" }) hc2
            (by show a2.arguments.inplace = true; rw [hba]; exact hia)
            (by show b2.arguments.inplace = true; rw [hbb]; exact hib)
            rfl with ⟨e, hg1, hg2⟩ |
          ⟨a3, b3, hg1, hg2, hc3, hf3, hsa3, hsb3, hba3, hbb3⟩
        · rw [hg1, hg2]
          exact rfl
        · rw [hg1, hg2]
          simp only [except_bind_ok]
          rcases capStep_sim flt nameN ({ a3 with formatted := "" })
              ({ b3 with formatted := "" }) hc3
              (by show a3.arguments.inplace = true
                  rw [hba3]
                  show a2.arguments.inplace = true
                  rw [hba]
                  exact hia)
              (by show b3.arguments.inplace = true
                  rw [hbb3]
                  show b2.arguments.inplace = true
                  rw [hbb]
                  exact hib)
              rfl with ⟨e, hj1, hj2⟩ |
            ⟨a4, b4, hj1, hj2, hc4, hf4, hsa4, hsb4, hba4, hbb4⟩
          · rw [hj1, hj2]
            exact rfl
          · rw [hj1, hj2]
            simp only [except_bind_ok]
            exact rfl
  | kindN :: typeN :: nameN :: valueN :: restP, a, b, h, hia, hib, hf => by
      rw [measureField, measureField]
      rcases capStep_sim flt kindN a b h hia hib hf with ⟨e, he1, he2⟩ |
        ⟨a2, b2, he1, he2, hc2, hf2, hsa, hsb, hba, hbb⟩
      · rw [he1, he2]
        exact rfl
      · rw [he1, he2]
        simp only [except_bind_ok]
        rcases capStep_sim flt typeN ({ a2 with formatted := "" })
            ({ b2 with formatted := "" }) hc2
            (by show a2.arguments.inplace = true; rw [hba]; exact hia)
            (by show b2.arguments.inplace = true; rw [hbb]; exact hib)
            rfl with ⟨e, hg1, hg2⟩ |
          ⟨a3, b3, hg1, hg2, hc3, hf3, hsa3, hsb3, hba3, hbb3⟩
        · rw [hg1, hg2]
          exact rfl
        · rw [hg1, hg2]
          simp only [except_bind_ok]
          rcases capStep_sim flt nameN ({ a3 with formatted := "" })
              ({ b3 with formatted := "" }) hc3
              (by show a3.arguments.inplace = true
                  rw [hba3]
                  show a2.arguments.inplace = true
                  rw [hba]
                  exact hia)
              (by show b3.arguments.inplace = true
                  rw [hbb3]
                  show b2.arguments.inplace = true
                  rw [hbb]
                  exact hib)
              rfl with ⟨e, hj1, hj2⟩ |
            ⟨a4, b4, hj1, hj2, hc4, hf4, hsa4, hsb4, hba4, hbb4⟩
          · rw [hj1, hj2]
            exact rfl
          · rw [hj1, hj2]
            simp only [except_bind_ok]
            rcases capStep_sim flt valueN ({ a4 with formatted := "" })
                ({ b4 with formatted := "" }) hc4
                (by show a4.arguments.inplace = true
                    rw [hba4]
                    show a3.arguments.inplace = true
                    rw [hba3]
                    show a2.arguments.inplace = true
                    rw [hba]
                    exact hia)
                (by show b4.arguments.inplace = true
                    rw [hbb4]
                    show b3.arguments.inplace = true
                    rw [hbb3]
                    show b2.arguments.inplace = true
                    rw [hbb]
                    exact hib)
                rfl with ⟨e, hm1, hm2⟩ |
              ⟨a5, b5, hm1, hm2, hc5, hf5, hsa5, hsb5, hba5, hbb5⟩
            · rw [hm1, hm2]
              exact rfl
            · rw [hm1, hm2]
              simp only [except_bind_ok]
              exact ⟨hc5, by rw [hf2, hf3, hf4, hf5], rfl,
                hsa5.trans (hsa4.trans (hsa3.trans hsa)),
                hsb5.trans (hsb4.trans (hsb3.trans hsb)),
                hba5.trans (hba4.trans (hba3.trans hba)),
                hbb5.trans (hbb4.trans (hbb3.trans hbb))⟩
termination_by parts a b h hia hib hf => 4 * sizeOf parts + 1
decreasing_by
  all_goals first
    | omega
    | (simp; omega)
    | simp

/-- The two runs of format_node_def emit the same delta. -/
theorem format_node_def_sim (flt : JSFilter) :
    ∀ (node : TSNode) (a b : State), Cur a b →
      SimR a b (format_node_def flt a node) (format_node_def flt b node)
  | node, a, b, h => by
      rw [format_node_def, format_node_def]
      cases hc0 : errAtLoc (node.child 0) node with
      | error e => exact rfl
      | ok mdu =>
          simp only [except_bind_ok]
          cases hkU : (mdu.kind == "USE")
          case true =>
            cases hn0 : errAtLoc (node.named_child 0) node with
            | error e => exact rfl
            | ok idn =>
                simp only [except_bind_ok]
                exact simR_ok (cur_print (cur_print h _) _)
                  (emits_trans (emits_print a "USE ") (emits_print _ _))
                  (emits_trans (emits_print b "USE ") (emits_print _ _))
          case false =>
            cases hkD : (mdu.kind == "DEF")
            case true =>
              cases hn0 : errAtLoc (node.named_child 0) node with
              | error e => exact rfl
              | ok dId =>
                  simp only [except_bind_ok]
                  cases hn1 : errAtLoc (node.named_child 1) node with
                  | error e => exact rfl
                  | ok idn =>
                      simp only [except_bind_ok]
                      refine simR_bind a b _ _ _ _
                        (simR_ok (cur_print (cur_print (cur_print
                            (cur_print h "DEF ") dId.text) " ") idn.text)
                          (emits_trans (emits_trans (emits_trans
                            (emits_print a "DEF ") (emits_print _ dId.text))
                            (emits_print _ " ")) (emits_print _ idn.text))
                          (emits_trans (emits_trans (emits_trans
                            (emits_print b "DEF ") (emits_print _ dId.text))
                            (emits_print _ " ")) (emits_print _ idn.text)))
                        ?_
                      intro a2 b2 h2
                      refine simR_mono
                        (emits_level (emits_print a2 " \x7b") _)
                        (emits_level (emits_print b2 " \x7b") _) _ _
                        (simR_bind _ _ _ _ _ _
                          (nodeBodyLoop_sim flt node.children.toList
                            (node.startPoint.row == node.endPoint.row) false 0
                            _ _ (cur_level_add (cur_print h2 " \x7b") 1)) ?_)
                      intro a3 b3 h3
                      cases ho : (node.startPoint.row == node.endPoint.row)
                      case true =>
                        exact simR_ok
                          (cur_print (cur_print (cur_level_sub h3 1) " ")
                            "\x7d")
                          (emits_trans (emits_trans
                            (emits_level (emits_refl a3) _)
                            (emits_print _ " ")) (emits_print _ "\x7d"))
                          (emits_trans (emits_trans
                            (emits_level (emits_refl b3) _)
                            (emits_print _ " ")) (emits_print _ "\x7d"))
                      case false =>
                        have hc4 := cur_level_sub h3 1
                        exact simR_ok
                          (cur_print (cur_indent (cur_println hc4 "")) "\x7d")
                          (emits_trans (emits_trans (emits_trans
                            (emits_level (emits_refl a3) _)
                            (emits_println _ ""))
                            (emits_indent_pair (cur_println hc4 "")).1)
                            (emits_print _ "\x7d"))
                          (emits_trans (emits_trans (emits_trans
                            (emits_level (emits_refl b3) _)
                            (emits_println _ ""))
                            (emits_indent_pair (cur_println hc4 "")).2)
                            (emits_print _ "\x7d"))
            case false =>
              cases hn0 : errAtLoc (node.named_child 0) node with
              | error e => exact rfl
              | ok idn =>
                  simp only [except_bind_ok]
                  refine simR_bind a b _ _ _ _
                    (simR_ok (cur_print h idn.text)
                      (emits_print a idn.text) (emits_print b idn.text))
                    ?_
                  intro a2 b2 h2
                  refine simR_mono
                    (emits_level (emits_print a2 " \x7b") _)
                    (emits_level (emits_print b2 " \x7b") _) _ _
                    (simR_bind _ _ _ _ _ _
                      (nodeBodyLoop_sim flt node.children.toList
                        (node.startPoint.row == node.endPoint.row) false 0
                        _ _ (cur_level_add (cur_print h2 " \x7b") 1)) ?_)
                  intro a3 b3 h3
                  cases ho : (node.startPoint.row == node.endPoint.row)
                  case true =>
                    exact simR_ok
                      (cur_print (cur_print (cur_level_sub h3 1) " ")
                        "\x7d")
                      (emits_trans (emits_trans
                        (emits_level (emits_refl a3) _)
                        (emits_print _ " ")) (emits_print _ "\x7d"))
                      (emits_trans (emits_trans
                        (emits_level (emits_refl b3) _)
                        (emits_print _ " ")) (emits_print _ "\x7d"))
                  case false =>
                    have hc4 := cur_level_sub h3 1
                    exact simR_ok
                      (cur_print (cur_indent (cur_println hc4 "")) "\x7d")
                      (emits_trans (emits_trans (emits_trans
                        (emits_level (emits_refl a3) _)
                        (emits_println _ ""))
                        (emits_indent_pair (cur_println hc4 "")).1)
                        (emits_print _ "\x7d"))
                      (emits_trans (emits_trans (emits_trans
                        (emits_level (emits_refl b3) _)
                        (emits_println _ ""))
                        (emits_indent_pair (cur_println hc4 "")).2)
                        (emits_print _ "\x7d"))
termination_by node a b h => 4 * sizeOf node + 2
decreasing_by
  all_goals
    (have hc := TSNode.sizeOf_children node
     have ht := TSNodeList.sizeOf_toList node.children
     omega)

/-- The two runs of the node body loop emit the same delta. -/
theorem nodeBodyLoop_sim (flt : JSFilter) :
    ∀ (l : List TSNode) (oneliner ok : Bool) (last_row : Nat)
      (a b : State), Cur a b →
      SimR a b (nodeBodyLoop flt a l oneliner ok last_row)
        (nodeBodyLoop flt b l oneliner ok last_row)
  | [], oneliner, ok, last_row, a, b, h => by
      rw [nodeBodyLoop, nodeBodyLoop]
      exact simR_ok h (emits_refl a) (emits_refl b)
  | child :: rest, oneliner, ok, last_row, a, b, h => by
      rw [nodeBodyLoop, nodeBodyLoop]
      cases hk1 : (child.kind == "\x7b" && ok == false)
      case true =>
        exact nodeBodyLoop_sim flt rest oneliner true child.endPoint.row a b h
      case false =>
      cases hk2 : (child.kind == "\x7d" && ok)
      case true =>
        exact nodeBodyLoop_sim flt rest oneliner false child.endPoint.row a b h
      case false =>
      cases hk3 : (child.kind == "comment" && ok)
      case true =>
        cases hp1 : (!oneliner && last_row != child.startPoint.row)
        case true =>
          refine simR_mono
            (emits_trans (emits_println a "")
              (emits_indent_pair (cur_println h "")).1)
            (emits_trans (emits_println b "")
              (emits_indent_pair (cur_println h "")).2) _ _ ?_
          refine simR_bind _ _ _ _ _ _
            (format_comment_sim child _ _ (cur_indent (cur_println h ""))) ?_
          intro a2 b2 h2
          exact nodeBodyLoop_sim flt rest oneliner ok child.endPoint.row
            a2 b2 h2
        case false =>
          cases hp2 : (last_row == child.startPoint.row)
          case true =>
            refine simR_mono (emits_print a " ") (emits_print b " ") _ _ ?_
            refine simR_bind _ _ _ _ _ _
              (format_comment_sim child _ _ (cur_print h " ")) ?_
            intro a2 b2 h2
            exact nodeBodyLoop_sim flt rest oneliner ok child.endPoint.row
              a2 b2 h2
          case false =>
            refine simR_bind a b _ _ _ _ (format_comment_sim child a b h) ?_
            intro a2 b2 h2
            exact nodeBodyLoop_sim flt rest oneliner ok child.endPoint.row
              a2 b2 h2
      case false =>
      cases hk4 : ok
      case true =>
        cases hon : (!oneliner)
        case true =>
          refine simR_mono
            (emits_trans (emits_println a "")
              (emits_indent_pair (cur_println h "")).1)
            (emits_trans (emits_println b "")
              (emits_indent_pair (cur_println h "")).2) _ _ ?_
          refine simR_bind _ _ _ _ _ _
            (format_node_sim flt child _ _ (cur_indent (cur_println h ""))) ?_
          intro a2 b2 h2
          exact nodeBodyLoop_sim flt rest oneliner true child.endPoint.row
            a2 b2 h2
        case false =>
          refine simR_mono (emits_print a " ") (emits_print b " ") _ _ ?_
          refine simR_bind _ _ _ _ _ _
            (format_node_sim flt child _ _ (cur_print h " ")) ?_
          intro a2 b2 h2
          exact nodeBodyLoop_sim flt rest oneliner true child.endPoint.row
            a2 b2 h2
      case false =>
        exact nodeBodyLoop_sim flt rest oneliner false last_row a b h
termination_by l oneliner ok last_row a b h => 4 * sizeOf l
decreasing_by
  all_goals first
    | omega
    | (simp; omega)
    | simp

/-- The two runs of format_property emit the same delta. -/
theorem format_property_sim (flt : JSFilter) :
    ∀ (node : TSNode) (a b : State), Cur a b →
      SimR a b (format_property flt a node) (format_property flt b node)
  | node, a, b, h => by
      rw [format_property, format_property]
      exact propertyLoop_sim flt node.children.toList true a b h
termination_by node a b h => 4 * sizeOf node + 2
decreasing_by
  all_goals
    (have hc := TSNode.sizeOf_children node
     have ht := TSNodeList.sizeOf_toList node.children
     omega)

/-- The two runs of the property loop emit the same delta. -/
theorem propertyLoop_sim (flt : JSFilter) :
    ∀ (l : List TSNode) (first : Bool) (a b : State), Cur a b →
      SimR a b (propertyLoop flt a l first) (propertyLoop flt b l first)
  | [], first, a, b, h => by
      rw [propertyLoop, propertyLoop]
      exact simR_ok h (emits_refl a) (emits_refl b)
  | child :: rest, first, a, b, h => by
      rw [propertyLoop, propertyLoop]
      cases hfst : (first == false)
      case true =>
        refine simR_mono (emits_print a " ") (emits_print b " ") _ _ ?_
        refine simR_bind _ _ _ _ _ _
          (format_node_sim flt child _ _ (cur_print h " ")) ?_
        intro a2 b2 h2
        exact propertyLoop_sim flt rest false a2 b2 h2
      case false =>
        refine simR_bind a b _ _ _ _ (format_node_sim flt child a b h) ?_
        intro a2 b2 h2
        exact propertyLoop_sim flt rest false a2 b2 h2
termination_by l first a b h => 4 * sizeOf l
decreasing_by
  all_goals first
    | omega
    | (simp; omega)
    | simp

/-- The two runs of format_vector emit the same delta. -/
theorem format_vector_sim (flt : JSFilter) :
    ∀ (node : TSNode) (a b : State), Cur a b →
      SimR a b (format_vector flt a node) (format_vector flt b node)
  | node, a, b, h => by
      rw [format_vector, format_vector]
      exact vectorLoop_sim flt node.children.toList
        (node.startPoint.row == node.endPoint.row) node node true false a b h
termination_by node a b h => 4 * sizeOf node + 2
decreasing_by
  all_goals
    (have hc := TSNode.sizeOf_children node
     have ht := TSNodeList.sizeOf_toList node.children
     omega)

/-- The two runs of the vector loop emit the same delta. -/
theorem vectorLoop_sim (flt : JSFilter) :
    ∀ (l : List TSNode) (oneliner : Bool) (vnode last : TSNode)
      (lip brackets : Bool) (a b : State), Cur a b →
      SimR a b (vectorLoop flt a l oneliner vnode last lip brackets)
        (vectorLoop flt b l oneliner vnode last lip brackets)
  | [], oneliner, vnode, last, lip, brackets, a, b, h => by
      rw [vectorLoop, vectorLoop]
      exact simR_ok h (emits_refl a) (emits_refl b)
  | child :: rest, oneliner, vnode, last, lip, brackets, a, b, h => by
      rw [vectorLoop, vectorLoop]
      cases hk1 : (child.kind == "[")
      case true =>
        cases hon : (oneliner == false)
        case true =>
          exact simR_mono (emits_level (emits_print a "[") _)
            (emits_level (emits_print b "[") _) _ _
            (vectorLoop_sim flt rest oneliner vnode vnode true true _ _
              (cur_level_add (cur_print h "[") 1))
        case false =>
          exact simR_mono (emits_print a "[") (emits_print b "[") _ _
            (vectorLoop_sim flt rest oneliner vnode vnode true true _ _
              (cur_print h "["))
      case false =>
      cases hk2 : (child.kind == "]")
      case true =>
        cases oneliner
        case true =>
          exact simR_mono (emits_print a " ]") (emits_print b " ]") _ _
            (vectorLoop_sim flt rest true vnode child false brackets _ _
              (cur_print h " ]"))
        case false =>
          have hc1 := cur_level_sub h 1
          exact simR_mono
            (emits_trans (emits_trans (emits_trans
              (emits_level (emits_refl a) _) (emits_println _ ""))
              (emits_indent_pair (cur_println hc1 "")).1)
              (emits_print _ "]"))
            (emits_trans (emits_trans (emits_trans
              (emits_level (emits_refl b) _) (emits_println _ ""))
              (emits_indent_pair (cur_println hc1 "")).2)
              (emits_print _ "]")) _ _
            (vectorLoop_sim flt rest false vnode child false brackets _ _
              (cur_print (cur_indent (cur_println hc1 "")) "]"))
      case false =>
      cases hk3 : (child.kind == ",")
      case true =>
        exact simR_mono (emits_print a ",") (emits_print b ",") _ _
          (vectorLoop_sim flt rest oneliner vnode child false brackets _ _
            (cur_print h ","))
      case false =>
      cases hk4 : (child.kind == "comment")
      case true =>
        cases hsl : (last.endPoint.row == child.startPoint.row)
        case true =>
          refine simR_mono (emits_print a " ") (emits_print b " ") _ _ ?_
          refine simR_bind _ _ _ _ _ _
            (format_comment_sim child _ _ (cur_print h " ")) ?_
          intro a2 b2 h2
          exact vectorLoop_sim flt rest oneliner vnode child false brackets
            a2 b2 h2
        case false =>
          refine simR_mono
            (emits_trans (emits_println a "")
              (emits_indent_pair (cur_println h "")).1)
            (emits_trans (emits_println b "")
              (emits_indent_pair (cur_println h "")).2) _ _ ?_
          refine simR_bind _ _ _ _ _ _
            (format_comment_sim child _ _ (cur_indent (cur_println h ""))) ?_
          intro a2 b2 h2
          exact vectorLoop_sim flt rest oneliner vnode child false brackets
            a2 b2 h2
      case false =>
        cases hp1 : (oneliner && (brackets || lip == false))
        case true =>
          refine simR_mono (emits_print a " ") (emits_print b " ") _ _ ?_
          refine simR_bind _ _ _ _ _ _
            (format_node_sim flt child _ _ (cur_print h " ")) ?_
          intro a2 b2 h2
          exact vectorLoop_sim flt rest oneliner vnode child false brackets
            a2 b2 h2
        case false =>
          cases hp2 : (oneliner == false)
          case true =>
            refine simR_mono
              (emits_trans (emits_println a "")
                (emits_indent_pair (cur_println h "")).1)
              (emits_trans (emits_println b "")
                (emits_indent_pair (cur_println h "")).2) _ _ ?_
            refine simR_bind _ _ _ _ _ _
              (format_node_sim flt child _ _
                (cur_indent (cur_println h ""))) ?_
            intro a2 b2 h2
            exact vectorLoop_sim flt rest oneliner vnode child false brackets
              a2 b2 h2
          case false =>
            refine simR_bind a b _ _ _ _ (format_node_sim flt child a b h) ?_
            intro a2 b2 h2
            exact vectorLoop_sim flt rest oneliner vnode child false brackets
              a2 b2 h2
termination_by l oneliner vnode last lip brackets a b h => 4 * sizeOf l
decreasing_by
  all_goals first
    | omega
    | (simp; omega)
    | simp

end

theorem println_stream (s : State) (h : s.arguments.inplace = false)
    (a : String) :
    s.println a
      = { s with stdout := s.stdout ++ a ++ "\n",
                 col := 0, row := s.row + 1 } := by
  rw [State.println, if_neg (by simp [h])]

/-- Claim C9 (confirmed): the emitted text is independent of the inplace
flag.  Two runs of fn beautify on the same tree that differ only in the
arguments (inplace flag and file list) either fail with the same error, or
produce the same characters in the same order: the inplace run's buffer
equals the streaming run's stdout, and each run's other sink stays empty. -/
theorem C9_theorem (flt : JSFilter) (root : TSNode)
    (files1 files2 : List String) :
    match beautify flt root ⟨files1, true⟩, beautify flt root ⟨files2, false⟩
      with
    | .ok s1, .ok s2 =>
        s1.formatted = s2.stdout ∧ s1.stdout = "" ∧ s2.formatted = ""
    | .error e1, .error e2 => e1 = e2
    | _, _ => False := by
  rw [beautify, beautify]
  cases herr : root.has_error
  case true =>
    cases hfe : find_first_error_node root with
    | some en => exact rfl
    | none => exact rfl
  case false =>
    have hsim := format_document_sim flt root (initState ⟨files1, true⟩)
      (initState ⟨files2, false⟩) ⟨rfl, rfl, rfl, rfl, rfl⟩
    cases h1 : format_document flt (initState ⟨files1, true⟩) root with
    | error e1 =>
        cases h2 : format_document flt (initState ⟨files2, false⟩) root with
        | error e2 =>
            rw [h1, h2] at hsim
            have he : e1 = e2 := hsim
            subst he
            simp only [h1, h2, except_bind_error]
            rfl
        | ok s2 =>
            rw [h1, h2] at hsim
            exact hsim.elim
    | ok s1 =>
        cases h2 : format_document flt (initState ⟨files2, false⟩) root with
        | error e2 =>
            rw [h1, h2] at hsim
            exact hsim.elim
        | ok s2 =>
            rw [h1, h2] at hsim
            obtain ⟨hcur, d, hea, heb⟩ := hsim
            obtain ⟨hargs1, hc1⟩ := hea
            obtain ⟨hargs2, hc2⟩ := heb
            have hip1 : s1.arguments.inplace = true := by
              rw [hargs1]
              rfl
            have hip2 : s2.arguments.inplace = false := by
              rw [hargs2]
              rfl
            rcases hc1 with ⟨_, hf1, hs1⟩ | ⟨hip, _, _⟩
            · rcases hc2 with ⟨hip, _, _⟩ | ⟨_, hs2, hf2⟩
              · have hx : (false : Bool) = true := hip
                exact absurd hx (by decide)
              · simp only [h1, h2, except_bind_ok]
                refine ⟨?_, ?_, ?_⟩
                · show (s1.println "").formatted = (s2.println "").stdout
                  rw [println_inplace s1 hip1, println_stream s2 hip2]
                  show s1.formatted ++ "" ++ "\n" = s2.stdout ++ "" ++ "\n"
                  rw [hf1, hs2]
                  rfl
                · show (s1.println "").stdout = ""
                  rw [println_inplace s1 hip1]
                  exact hs1
                · show (s2.println "").formatted = ""
                  rw [println_stream s2 hip2]
                  exact hf2
            · have hx : (true : Bool) = false := hip
              exact absurd hx (by decide)

/-- fn measure_field panics (Option::unwrap on None) whenever the field has
fewer than its four expected children, whichever child is the missing one:
the parts present are formatted, then the unwrap of the next child access
aborts. -/
theorem measureField_short (flt : JSFilter) :
    ∀ (parts : List TSNode), (∀ p ∈ parts, PlainToken p) →
      parts.length < 4 →
    ∀ (s : State),
      measureField flt s parts
        = .error (.panicked "called Option::unwrap() on a None value")
  | [], _, _, s => by
      rw [measureField]
  | [k], hp, _, s => by
      rw [measureField]
      rw [format_node_plainToken flt s k (hp k (by simp))]
      rfl
  | [k, t], hp, _, s => by
      rw [measureField]
      rw [format_node_plainToken flt s k (hp k (by simp))]
      simp only [unwrapResult_ok, except_bind_ok]
      rw [format_node_plainToken flt _ t (hp t (by simp))]
      rfl
  | [k, t, n], hp, _, s => by
      rw [measureField]
      rw [format_node_plainToken flt s k (hp k (by simp))]
      simp only [unwrapResult_ok, except_bind_ok]
      rw [format_node_plainToken flt _ t (hp t (by simp))]
      simp only [unwrapResult_ok, except_bind_ok]
      rw [format_node_plainToken flt _ n (hp n (by simp))]
      rfl
  | k :: t :: n :: v :: r, _, hlen, s => by
      exfalso
      simp only [List.length_cons] at hlen
      omega

/-- The field loop of fn field_sizes propagates the unwrap panic when a
malformed field sits anywhere after a prefix of well-formed token fields. -/
theorem fieldSizesLoop_panic (flt : JSFilter) :
    ∀ (good : List TSNode), (∀ f ∈ good, TokenField f) →
    ∀ (bad : TSNode) (rest : List TSNode),
      (∀ p ∈ bad.children.toList, PlainToken p) →
      bad.children.toList.length < 4 →
    ∀ (s0 : State), s0.arguments.inplace = true →
    ∀ (X a b c d : Nat),
      fieldSizesLoop flt { s0 with formatted := "", col := X }
          (good ++ bad :: rest) a b c d
        = .error (.panicked "called Option::unwrap() on a None value")
  | [], _, bad, rest, hbad, hlen, s0, hin, X, a, b, c, d => by
      rw [List.nil_append, fieldSizesLoop]
      rw [measureField_short flt bad.children.toList hbad hlen _]
      rfl
  | f :: grest, hgood, bad, rest, hbad, hlen, s0, hin, X, a, b, c, d => by
      obtain ⟨k, t, nm, v, hch, hk, ht, hnm, hv⟩ :=
        hgood f (List.mem_cons_self f grest)
      have hgrest := fun x hx => hgood x (List.mem_cons_of_mem f hx)
      rw [List.cons_append, fieldSizesLoop]
      rw [hch]
      rw [measureField_token flt
        ({ s0 with formatted := "", col := X } : State) hin rfl
        k t nm v hk ht hnm hv]
      simp only [except_bind_ok]
      exact fieldSizesLoop_panic flt grest hgrest bad rest hbad hlen s0 hin
        (X + (k.text.utf8ByteSize + t.text.utf8ByteSize
          + nm.text.utf8ByteSize + v.text.utf8ByteSize)) _ _ _ _

/-- fn field_sizes propagates the unwrap panic for a malformed field
anywhere in the measured list, from any starting state. -/
theorem field_sizes_panic (flt : JSFilter) (s : State)
    (good : List TSNode) (hgood : ∀ f ∈ good, TokenField f)
    (bad : TSNode) (rest : List TSNode)
    (hbad : ∀ p ∈ bad.children.toList, PlainToken p)
    (hlen : bad.children.toList.length < 4) :
    field_sizes flt s (good ++ bad :: rest)
      = .error (.panicked "called Option::unwrap() on a None value") := by
  rw [field_sizes]
  have hstart :
      ({ s with
          formatted := "",
          arguments := { s.arguments with inplace := true } } : State)
        = { ({ s with
                arguments := { s.arguments with inplace := true } } : State) with
            formatted := "", col := s.col } := by
    cases s
    rfl
  rw [hstart]
  rw [fieldSizesLoop_panic flt good hgood bad rest hbad hlen
    ({ s with arguments := { s.arguments with inplace := true } } : State) rfl
    s.col 0 0 0 0]
  rfl

/-- Claim C6 (corrected): for every proto whose parameter list contains a
field node missing any of its four expected children (kind, type, name or
value; zero to three children present), wherever that field sits in the
list, formatting does fail — but via a Rust panic (Option::unwrap on None)
raised in the measurement pass, whose message carries no source location,
not via a located error result (see C6_counterexample).  A proto node
missing its name child does fail with a fatal error result carrying the
proto's source location. -/
theorem C6_theorem :
    (∀ (flt : JSFilter) (s : State) (node nameN bad : TSNode)
        (good rest : List TSNode),
        node.child_by_field_name "proto" = some nameN →
        (node.children.toList.filter (fun n => n.named)).filter
            (fun n => n.kind == "field") = good ++ bad :: rest →
        (∀ f ∈ good, TokenField f) →
        (∀ p ∈ bad.children.toList, PlainToken p) →
        bad.children.toList.length < 4 →
        format_proto flt s node
          = .error (.panicked "called Option::unwrap() on a None value")) ∧
    (∀ (flt : JSFilter) (s : State) (node : TSNode),
        node.child_by_field_name "proto" = none →
        format_proto flt s node
          = .error (.err ("Error accessing token around line "
              ++ toString node.startPoint.row ++ " col "
              ++ toString node.startPoint.column))) := by
  constructor
  · intro flt s node nameN bad good rest hname hfilter hgood hbad hlen
    rw [format_proto, hname]
    simp only [errAtLoc, except_bind_ok]
    rw [hfilter]
    rw [field_sizes_panic flt s good hgood bad rest hbad hlen]
    rfl
  · intro flt s node h
    rw [format_proto]
    rw [h]
    rfl

/-- A field missing only its value child (kind, type and name present). -/
def C6_badField2 : TSNode :=
  mkNode "field" true none 2 2 2 16 "field SFBool b"
    [ mkNode "fieldkw" false none 2 2 2 7 "field" [],
      mkNode "type" true none 2 8 2 14 "SFBool" [],
      mkNode "identifier" true none 2 15 2 16 "b" [] ]

/-- A proto whose parameter list has a well-formed field followed by the
field missing its value child. -/
def C6_badProto2 : TSNode :=
  mkNode "proto" true none 0 0 4 1 ""
    [ mkNode "PROTO" false none 0 0 0 5 "PROTO" [],
      mkNode "identifier" true (some "proto") 0 6 0 7 "Z" [],
      mkNode "[" false none 0 8 0 9 "[" [],
      fieldNodeA,
      C6_badField2,
      mkNode "]" false none 3 0 3 1 "]" [],
      mkNode "\x7b" false none 4 0 4 0 "\x7b" [],
      mkNode "\x7d" false none 4 1 4 1 "\x7d" [] ]

theorem C6_witness :
    format_proto idFlt (initState ⟨[], true⟩) C6_badProto2
      = .error (.panicked "called Option::unwrap() on a None value") ∧
    format_proto idFlt (initState ⟨[], true⟩) C6_noNameProto
      = .error (.err ("Error accessing token around line "
          ++ toString (4 : Nat) ++ " col " ++ toString (2 : Nat))) := by
  constructor
  · exact C6_theorem.1 idFlt (initState ⟨[], true⟩) C6_badProto2
      (mkNode "identifier" true (some "proto") 0 6 0 7 "Z" [])
      C6_badField2 [fieldNodeA] [] rfl rfl
      (by
        intro f hf
        simp only [List.mem_singleton] at hf
        subst hf
        exact ⟨_, _, _, _, rfl,
          ⟨by decide, by decide, by decide, by decide, by decide, by decide,
            by decide, by decide⟩,
          ⟨by decide, by decide, by decide, by decide, by decide, by decide,
            by decide, by decide⟩,
          ⟨by decide, by decide, by decide, by decide, by decide, by decide,
            by decide, by decide⟩,
          ⟨by decide, by decide, by decide, by decide, by decide, by decide,
            by decide, by decide⟩⟩)
      (by
        intro p hp
        simp only [C6_badField2, mkNode, TSNode.children, TSNodeList.toList,
          TSNodeList.ofList, List.mem_cons, List.not_mem_nil, or_false] at hp
        rcases hp with rfl | rfl | rfl
        · exact ⟨by decide, by decide, by decide, by decide, by decide,
            by decide, by decide, by decide⟩
        · exact ⟨by decide, by decide, by decide, by decide, by decide,
            by decide, by decide, by decide⟩
        · exact ⟨by decide, by decide, by decide, by decide, by decide,
            by decide, by decide, by decide⟩)
      (by decide)
  · exact C6_theorem.2 idFlt (initState ⟨[], true⟩) C6_noNameProto (by
      simp [C6_noNameProto, mkNode, TSNode.child_by_field_name,
        TSNode.children, TSNode.fieldName, TSNodeList.toList,
        TSNodeList.ofList, List.find?])
